import Mathlib

/-!
Verification of the OpenAPI post-processing pipeline
(`scripts/fix-openapi-nullable.py`).

The document tree produced by the YAML loader is modelled by `Val`:
mappings are association lists with unique keys in insertion order
(Python `dict` preserves insertion order), sequences are lists, and
scalars are strings / integers / booleans / null.  `Val.quotedNull`
models the `QuotedNull("null")` marker — a `str` subclass that compares
equal to `"null"` — used to force quoted YAML output.

Operations that can raise a Python exception on malformed shapes
(attribute errors on non-dicts, item assignment on non-dicts, …) are
modelled in `Option`, with `none` standing for a raised exception.
-/

set_option autoImplicit false

namespace OpenapiFix

/-- A YAML/JSON document value as loaded by `yaml.safe_load`, plus the
`QuotedNull` marker used by the serialization pass. -/
inductive Val where
  | str : String → Val
  | quotedNull : Val
  | int : Int → Val
  | bool : Bool → Val
  | null : Val
  | arr : List Val → Val
  | obj : List (String × Val) → Val

/-- Python `d[k]` / `d.get(k)`: first entry with the given key
(keys of a Python dict are unique, so "first" is "the" entry). -/
def getKey : List (String × Val) → String → Option Val
  | [], _ => none
  | (k, v) :: rest, key => if k = key then some v else getKey rest key

/-- Python `d[k] = v`: replace the value in place if the key exists,
append the new entry otherwise (insertion order is preserved). -/
def setKey : List (String × Val) → String → Val → List (String × Val)
  | [], key, val => [(key, val)]
  | (k, v) :: rest, key, val =>
      if k = key then (key, val) :: rest else (k, v) :: setKey rest key val

/-- Python `d.pop(k, None)`: drop the entry with the given key, if any. -/
def popKey : List (String × Val) → String → List (String × Val)
  | [], _ => []
  | (k, v) :: rest, key => if k = key then rest else (k, v) :: popKey rest key

/-- Python `k in d`. -/
def hasKey (d : List (String × Val)) (key : String) : Bool :=
  (getKey d key).isSome

/-- Python `key.endswith(suffix)` over code points: executable and
kernel-reducible (unlike `String.endsWith`). -/
def strEndsWith (s suffix : String) : Bool :=
  s.data.drop (s.data.length - suffix.data.length) == suffix.data

/-- Python `for key in schemas: if key.endswith(suffix): ... break` —
the first key (in insertion order) ending with the suffix. -/
def findSuffixKey (keys : List String) (suffix : String) : Option String :=
  keys.find? (fun k => strEndsWith k suffix)

theorem getKey_setKey_self (s : List (String × Val)) (k : String) (v : Val) :
    getKey (setKey s k v) k = some v := by
  induction s with
  | nil => simp [setKey, getKey]
  | cons hd tl ih =>
    obtain ⟨k', v'⟩ := hd
    by_cases h : k' = k
    · simp [setKey, getKey, h]
    · simp [setKey, getKey, h, ih]

theorem getKey_setKey_ne (s : List (String × Val)) (k : String) (v : Val)
    (a : String) (h : a ≠ k) : getKey (setKey s k v) a = getKey s a := by
  have h' : ¬(k = a) := fun hc => h hc.symm
  induction s with
  | nil => simp [setKey, getKey, h']
  | cons hd tl ih =>
    obtain ⟨k', v'⟩ := hd
    by_cases hk : k' = k
    · subst hk
      simp [setKey, getKey, h']
    · by_cases ha : k' = a
      · subst ha
        simp [setKey, getKey, hk]
      · simp [setKey, getKey, hk, ha, ih]

theorem setKey_same (s : List (String × Val)) (k : String) (v : Val)
    (h : getKey s k = some v) : setKey s k v = s := by
  induction s with
  | nil => simp [getKey] at h
  | cons hd tl ih =>
    obtain ⟨k', v'⟩ := hd
    by_cases hk : k' = k
    · subst hk
      simp [getKey] at h
      simp [setKey, h]
    · simp [getKey, hk] at h
      simp [setKey, hk, ih h]

theorem getKey_popKey_ne (s : List (String × Val)) (k a : String)
    (h : a ≠ k) : getKey (popKey s k) a = getKey s a := by
  have h' : ¬(k = a) := fun hc => h hc.symm
  induction s with
  | nil => simp [popKey]
  | cons hd tl ih =>
    obtain ⟨k', v'⟩ := hd
    by_cases hk : k' = k
    · subst hk
      simp [popKey, getKey, h']
    · by_cases ha : k' = a
      · subst ha
        simp [popKey, getKey, hk]
      · simp [popKey, getKey, hk, ha, ih]

theorem getKey_isSome_iff_mem (s : List (String × Val)) (k : String) :
    (getKey s k).isSome = true ↔ k ∈ s.map Prod.fst := by
  induction s with
  | nil => simp [getKey]
  | cons hd tl ih =>
    obtain ⟨k', v'⟩ := hd
    by_cases hk : k' = k
    · simp [getKey, hk]
    · simp [getKey, hk, ih, Ne.symm hk]

theorem getKey_popKey_self (s : List (String × Val)) (k : String)
    (h : (s.map Prod.fst).Nodup) : getKey (popKey s k) k = none := by
  induction s with
  | nil => simp [popKey, getKey]
  | cons hd tl ih =>
    obtain ⟨k', v'⟩ := hd
    simp only [List.map_cons, List.nodup_cons] at h
    by_cases hk : k' = k
    · subst hk
      cases hg : getKey tl k' with
      | none => simpa [popKey] using hg
      | some w =>
        exact absurd ((getKey_isSome_iff_mem tl k').1 (by simp [hg])) h.1
    · simp [popKey, getKey, hk, ih h.2]

theorem keys_setKey_mem (s : List (String × Val)) (k : String) (v w : Val)
    (h : getKey s k = some w) :
    (setKey s k v).map Prod.fst = s.map Prod.fst := by
  induction s with
  | nil => simp [getKey] at h
  | cons hd tl ih =>
    obtain ⟨k', v'⟩ := hd
    by_cases hk : k' = k
    · simp [setKey, hk]
    · simp [getKey, hk] at h
      simp [setKey, hk, ih h]

theorem keys_setKey_new (s : List (String × Val)) (k : String) (v : Val)
    (h : getKey s k = none) :
    (setKey s k v).map Prod.fst = s.map Prod.fst ++ [k] := by
  induction s with
  | nil => simp [setKey]
  | cons hd tl ih =>
    obtain ⟨k', v'⟩ := hd
    by_cases hk : k' = k
    · simp [getKey, hk] at h
    · simp [getKey, hk] at h
      simp [setKey, hk, ih h]

theorem nodup_keys_setKey (s : List (String × Val)) (k : String) (v : Val)
    (h : (s.map Prod.fst).Nodup) : ((setKey s k v).map Prod.fst).Nodup := by
  cases hg : getKey s k with
  | some w => rw [keys_setKey_mem s k v w hg]; exact h
  | none =>
    rw [keys_setKey_new s k v hg]
    rw [List.nodup_append]
    refine ⟨h, List.nodup_singleton k, ?_⟩
    intro a ha hb
    simp only [List.mem_singleton] at hb
    subst hb
    have : (getKey s a).isSome = true := (getKey_isSome_iff_mem s a).2 ha
    rw [hg] at this
    simp at this

theorem find?_append_left {α : Type} (l l₂ : List α) (p : α → Bool) (a : α)
    (h : l.find? p = some a) : (l ++ l₂).find? p = some a := by
  induction l with
  | nil => simp [List.find?] at h
  | cons hd tl ih =>
    by_cases hp : p hd
    · rw [List.find?_cons_of_pos _ hp] at h
      simpa [List.find?_cons_of_pos _ hp] using h
    · rw [List.find?_cons_of_neg _ (by simpa using hp)] at h
      simpa [List.find?_cons_of_neg _ (by simpa using hp)] using ih h

theorem findSuffixKey_endsWith (keys : List String) (suffix k : String)
    (h : findSuffixKey keys suffix = some k) : strEndsWith k suffix = true := by
  have := List.find?_some h
  simpa using this

theorem findSuffixKey_mem (keys : List String) (suffix k : String)
    (h : findSuffixKey keys suffix = some k) : k ∈ keys :=
  List.mem_of_find?_eq_some h

/-- Appending keys that do not end with the suffix does not change the
first suffix match. -/
theorem findSuffixKey_append (keys more : List String) (suffix k : String)
    (h : findSuffixKey keys suffix = some k) :
    findSuffixKey (keys ++ more) suffix = some k :=
  find?_append_left keys more _ k h

/-!  ## The nullable wrapper (`_make_nullable`)  -/

/-- Python `value == "null"` for a loaded scalar: true for the plain
string `"null"` and for the `QuotedNull` wrapper (a `str` subclass that
compares equal to `"null"`). -/
def isNullStr : Val → Bool
  | .str s => s = "null"
  | .quotedNull => true
  | _ => false

/-- Python truthiness (`if desc:`) for a loaded value. -/
def truthy : Val → Bool
  | .str s => s != ""
  | .quotedNull => true
  | .int n => n != 0
  | .bool b => b
  | .null => false
  | .arr l => !l.isEmpty
  | .obj kvs => !kvs.isEmpty

/-- The scan `any(v.get("type") == "null" for v in variants)`.
`none` models the `AttributeError` raised when `.get` is called on a
non-dict variant before a null variant is found (`any` is lazy). -/
def scanNull : List Val → Option Bool
  | [] => some false
  | .obj kvs :: rest =>
      if (getKey kvs "type").any isNullStr then some true else scanNull rest
  | _ :: _ => none

/-- The non-null variant built for a `$ref` field: the `$ref` is popped
first, then the description; a truthy description is wrapped together
with the reference in an `allOf`. -/
def refNonNull (fs : List (String × Val)) (r : Val) : Val :=
  match getKey (popKey fs "$ref") "description" with
  | some d =>
      if truthy d then
        .obj [("allOf", .arr [.obj [("$ref", r)], .obj [("description", d)]])]
      else
        .obj [("$ref", r)]
  | none => .obj [("$ref", r)]

/-- The wrap step of `_make_nullable` (lines 54-70): build the non-null
variant, clear the field schema, install the two-variant `anyOf`.  For
a `$ref` field the variant is `refNonNull`; otherwise it is the field's
full original content, every key except `anyOf`. -/
def makeWrap (fs : List (String × Val)) : List (String × Val) :=
  match getKey fs "$ref" with
  | some r => [("anyOf", .arr [refNonNull fs r, .obj [("type", .str "null")]])]
  | none => [("anyOf", .arr [.obj (fs.filter (fun kv => kv.1 ≠ "anyOf")),
                             .obj [("type", .str "null")]])]

/-- Dispatch on the result of the null-variant scan: a crash
propagates, a found null variant returns the field unchanged, and
otherwise the field is wrapped. -/
def afterScan (fs : List (String × Val)) : Option Bool → Option (List (String × Val))
  | none => none
  | some true => some fs
  | some false => some (makeWrap fs)

/-- `_make_nullable`: wrap a field schema in `anyOf` with a null
variant, returning the field unchanged when it already carries an
`anyOf` with a null variant.  The field schema is the dict's entry
list; `none` models a raised exception on malformed shapes (iterating
a non-list `anyOf`, `.get` on a non-dict variant). -/
def make_nullable (fs : List (String × Val)) : Option (List (String × Val)) :=
  match getKey fs "anyOf" with
  | some (.arr variants) => afterScan fs (scanNull variants)
  | some _ => none
  | none => some (makeWrap fs)

theorem make_nullable_of_anyOf_arr (fs : List (String × Val)) (variants : List Val)
    (hA : getKey fs "anyOf" = some (.arr variants)) :
    make_nullable fs = afterScan fs (scanNull variants) := by
  unfold make_nullable
  rw [hA]

theorem make_nullable_of_no_anyOf (fs : List (String × Val))
    (hA : getKey fs "anyOf" = none) :
    make_nullable fs = some (makeWrap fs) := by
  unfold make_nullable
  rw [hA]

/-- A field schema that (per the spec's wording) "carries an `anyOf`
containing a `{"type": "null"}` variant". -/
def hasAnyOfNullVariant (fs : List (String × Val)) : Bool :=
  match getKey fs "anyOf" with
  | some (.arr vs) =>
      vs.any (fun v =>
        match v with
        | .obj kvs => (getKey kvs "type").any isNullStr
        | _ => false)
  | _ => false

example :
    make_nullable [("type", .str "integer"), ("description", .str "d")] =
      some [("anyOf", .arr [.obj [("type", .str "integer"), ("description", .str "d")],
                            .obj [("type", .str "null")]])] := by rfl

example :
    make_nullable [("$ref", .str "#/s/X"), ("description", .str "hi")] =
      some [("anyOf", .arr [.obj [("allOf", .arr [.obj [("$ref", .str "#/s/X")],
                                                  .obj [("description", .str "hi")]])],
                            .obj [("type", .str "null")]])] := by rfl

theorem refNonNull_isObj (fs : List (String × Val)) (r : Val) :
    ∃ kvs, refNonNull fs r = .obj kvs := by
  unfold refNonNull
  split
  · split
    · exact ⟨_, rfl⟩
    · exact ⟨_, rfl⟩
  · exact ⟨_, rfl⟩

theorem makeWrap_shape (fs : List (String × Val)) :
    ∃ kvs, makeWrap fs =
      [("anyOf", .arr [.obj kvs, .obj [("type", .str "null")]])] := by
  unfold makeWrap
  split
  · next r _ =>
    obtain ⟨kvs, hk⟩ := refNonNull_isObj fs r
    exact ⟨kvs, by rw [hk]⟩
  · exact ⟨_, rfl⟩

theorem scanNull_pair (kvs : List (String × Val)) :
    scanNull [.obj kvs, .obj [("type", .str "null")]] = some true := by
  by_cases h : (getKey kvs "type").any isNullStr
  · simp [scanNull, h]
  · simp [scanNull, h, getKey, isNullStr]

/-- Re-applying `_make_nullable` to a freshly wrapped field returns it
unchanged. -/
theorem make_nullable_makeWrap (fs : List (String × Val)) :
    make_nullable (makeWrap fs) = some (makeWrap fs) := by
  obtain ⟨kvs, hk⟩ := makeWrap_shape fs
  rw [hk]
  rw [make_nullable_of_anyOf_arr _ [.obj kvs, .obj [("type", .str "null")]] (by rfl)]
  rw [scanNull_pair kvs]
  rfl

/-- The early-return branch: an `anyOf` whose scan finds a null variant
is returned unchanged. -/
theorem make_nullable_early (fs : List (String × Val)) (variants : List Val)
    (h1 : getKey fs "anyOf" = some (.arr variants))
    (h2 : scanNull variants = some true) : make_nullable fs = some fs := by
  rw [make_nullable_of_anyOf_arr fs variants h1, h2]
  rfl

/-- C1.  Applying the nullable wrapper twice to any field schema whose
post-wrap shape contains an `anyOf` with a `{"type": "null"}` variant
yields the same result as applying it once, and a field that already
carries an `anyOf` whose scan finds a `{"type": "null"}` variant is
returned unchanged. -/
theorem c1_nullable_wrapper_idempotent :
    (∀ fs g, make_nullable fs = some g → hasAnyOfNullVariant g = true →
        make_nullable g = some g) ∧
    (∀ fs variants, getKey fs "anyOf" = some (.arr variants) →
        scanNull variants = some true → make_nullable fs = some fs) := by
  constructor
  · intro fs g h1 _h2
    cases hA : getKey fs "anyOf" with
    | none =>
      rw [make_nullable_of_no_anyOf fs hA] at h1
      have hg : makeWrap fs = g := by simpa using h1
      subst hg
      exact make_nullable_makeWrap fs
    | some v =>
      cases v with
      | arr variants =>
        rw [make_nullable_of_anyOf_arr fs variants hA] at h1
        cases hs : scanNull variants with
        | none =>
          rw [hs] at h1
          exact absurd h1 (by simp [afterScan])
        | some b =>
          rw [hs] at h1
          cases b with
          | false =>
            have hg : makeWrap fs = g := by simpa [afterScan] using h1
            subst hg
            exact make_nullable_makeWrap fs
          | true =>
            have hg : fs = g := by simpa [afterScan] using h1
            subst hg
            exact make_nullable_early fs variants hA hs
      | str s =>
        rw [show make_nullable fs = none from by unfold make_nullable; rw [hA]] at h1
        exact absurd h1 (by simp)
      | quotedNull =>
        rw [show make_nullable fs = none from by unfold make_nullable; rw [hA]] at h1
        exact absurd h1 (by simp)
      | int n =>
        rw [show make_nullable fs = none from by unfold make_nullable; rw [hA]] at h1
        exact absurd h1 (by simp)
      | bool b =>
        rw [show make_nullable fs = none from by unfold make_nullable; rw [hA]] at h1
        exact absurd h1 (by simp)
      | null =>
        rw [show make_nullable fs = none from by unfold make_nullable; rw [hA]] at h1
        exact absurd h1 (by simp)
      | obj kvs =>
        rw [show make_nullable fs = none from by unfold make_nullable; rw [hA]] at h1
        exact absurd h1 (by simp)
  · intro fs variants h1 h2
    exact make_nullable_early fs variants h1 h2

/-- C1 witness: a concrete primitive field, wrapped once, is a fixed
point of the wrapper; a concrete already-nullable field is returned
unchanged. -/
theorem c1_nullable_wrapper_idempotent_witness :
    make_nullable [("anyOf", .arr [.obj [("type", .str "integer")],
                                   .obj [("type", .str "null")]])] =
      some [("anyOf", .arr [.obj [("type", .str "integer")],
                            .obj [("type", .str "null")]])] ∧
    make_nullable [("anyOf", .arr [.obj [("type", .str "null")]]),
                   ("description", .str "d")] =
      some [("anyOf", .arr [.obj [("type", .str "null")]]),
            ("description", .str "d")] := by
  constructor
  · exact c1_nullable_wrapper_idempotent.1 [("type", .str "integer")] _ (by rfl) (by rfl)
  · exact c1_nullable_wrapper_idempotent.2 _ [.obj [("type", .str "null")]] (by rfl) (by rfl)

/-!  ## C2: the `$ref` branch of the wrapper  -/

/-- The field schema does not hit the wrapper's early return: either no
`anyOf` key, or an `anyOf` list whose scan completes without finding a
null variant. -/
def notEarlyReturn (fs : List (String × Val)) : Prop :=
  getKey fs "anyOf" = none ∨
    ∃ vs, getKey fs "anyOf" = some (.arr vs) ∧ scanNull vs = some false

/-- C2 counterexample: the claim fails as stated.
First input: a `$ref` field with an (empty, falsy) prior description —
the wrapper discards the description and emits a bare `{"$ref": r}`
variant, not the claimed `allOf` of the reference and the description.
Second input: a `$ref` field that already carries an `anyOf` with a
null variant — the wrapper returns it unchanged, so the resulting
`anyOf`'s first variant is the null variant, neither a bare reference
nor an `allOf`. -/
theorem c2_ref_branch_counterexample :
    make_nullable [("$ref", .str "#/components/schemas/X"),
                   ("description", .str "")] =
      some [("anyOf", .arr [.obj [("$ref", .str "#/components/schemas/X")],
                            .obj [("type", .str "null")]])] ∧
    make_nullable [("$ref", .str "#/components/schemas/X"),
                   ("anyOf", .arr [.obj [("type", .str "null")]])] =
      some [("$ref", .str "#/components/schemas/X"),
            ("anyOf", .arr [.obj [("type", .str "null")]])] := by
  exact ⟨rfl, rfl⟩

/-- C2 (amended).  For every field schema containing a `$ref` key that
does not hit the wrapper's early return, the first (non-null) variant
of the resulting `anyOf` is exactly `{"allOf": [{"$ref": r},
{"description": d}]}` when the field previously carried a truthy
(non-empty) description `d`, and exactly `{"$ref": r}` when it carried
no description or a falsy one; a `description` key is never placed
adjacent to the `$ref` key. -/
theorem c2_ref_branch_amended (fs : List (String × Val)) (r : Val)
    (href : getKey fs "$ref" = some r) (hne : notEarlyReturn fs) :
    (∀ d, getKey fs "description" = some d → truthy d = true →
        make_nullable fs =
          some [("anyOf",
                 .arr [.obj [("allOf", .arr [.obj [("$ref", r)],
                                             .obj [("description", d)]])],
                       .obj [("type", .str "null")]])]) ∧
    ((∀ d, getKey fs "description" = some d → truthy d = false) →
        make_nullable fs =
          some [("anyOf", .arr [.obj [("$ref", r)],
                                .obj [("type", .str "null")]])]) := by
  have hdesc : getKey (popKey fs "$ref") "description" = getKey fs "description" :=
    getKey_popKey_ne fs "$ref" "description" (by decide)
  have hwrap : make_nullable fs = some (makeWrap fs) := by
    rcases hne with hA | ⟨vs, hA, hsc⟩
    · exact make_nullable_of_no_anyOf fs hA
    · rw [make_nullable_of_anyOf_arr fs vs hA, hsc]
      rfl
  have hmw : makeWrap fs = [("anyOf", .arr [refNonNull fs r, .obj [("type", .str "null")]])] := by
    unfold makeWrap
    rw [href]
  constructor
  · intro d hd htr
    rw [hwrap, hmw]
    unfold refNonNull
    rw [hdesc, hd]
    simp [htr]
  · intro hfalsy
    rw [hwrap, hmw]
    unfold refNonNull
    rw [hdesc]
    cases hd : getKey fs "description" with
    | none => rfl
    | some d => simp [hfalsy d hd]

/-- C2 witness: concrete `$ref` fields, one with a truthy description
and one with none, wrapped as the amended claim states. -/
theorem c2_ref_branch_amended_witness :
    make_nullable [("$ref", .str "#/s/Y"), ("description", .str "doc")] =
      some [("anyOf",
             .arr [.obj [("allOf", .arr [.obj [("$ref", .str "#/s/Y")],
                                         .obj [("description", .str "doc")]])],
                   .obj [("type", .str "null")]])] ∧
    make_nullable [("$ref", .str "#/s/Z")] =
      some [("anyOf", .arr [.obj [("$ref", .str "#/s/Z")],
                            .obj [("type", .str "null")]])] := by
  constructor
  · exact (c2_ref_branch_amended [("$ref", .str "#/s/Y"), ("description", .str "doc")]
      (.str "#/s/Y") (by rfl) (Or.inl (by rfl))).1
      (.str "doc") (by rfl) (by rfl)
  · exact (c2_ref_branch_amended [("$ref", .str "#/s/Z")]
      (.str "#/s/Z") (by rfl) (Or.inl (by rfl))).2
      (fun d hd => by simp [getKey] at hd)

/-!  ## The null-tag serialization pass (`_tag_null_types`)  -/

mutual
/-- `_tag_null_types`: recursively find `{type: "null"}` entries and
replace the value with the `QuotedNull` wrapper.  The comparison
`value == "null"` is also true for an already-tagged `QuotedNull`
(a `str` subclass). -/
def tag_null_types : Val → Val
  | .obj kvs => .obj (tagNullObj kvs)
  | .arr l => .arr (tagNullArr l)
  | .str s => .str s
  | .quotedNull => .quotedNull
  | .int n => .int n
  | .bool b => .bool b
  | .null => .null

/-- The mapping case of `_tag_null_types`: a `type` entry whose value
equals `"null"` is replaced with the wrapper; every other entry's value
is recursed into. -/
def tagNullObj : List (String × Val) → List (String × Val)
  | [] => []
  | (k, v) :: rest =>
      (if k = "type" ∧ isNullStr v then (k, Val.quotedNull)
       else (k, tag_null_types v)) :: tagNullObj rest

/-- The sequence case of `_tag_null_types`. -/
def tagNullArr : List Val → List Val
  | [] => []
  | v :: rest => tag_null_types v :: tagNullArr rest
end

theorem isNullStr_tag (v : Val) : isNullStr (tag_null_types v) = isNullStr v := by
  cases v <;> rfl

mutual
theorem tag_null_types_idem : ∀ v, tag_null_types (tag_null_types v) = tag_null_types v
  | .str _ => rfl
  | .quotedNull => rfl
  | .int _ => rfl
  | .bool _ => rfl
  | .null => rfl
  | .arr l => congrArg Val.arr (tagNullArr_idem l)
  | .obj kvs => congrArg Val.obj (tagNullObj_idem kvs)

theorem tagNullObj_idem : ∀ kvs, tagNullObj (tagNullObj kvs) = tagNullObj kvs
  | [] => rfl
  | (k, v) :: rest => by
      by_cases h : k = "type" ∧ isNullStr v
      · rw [tagNullObj, if_pos h, tagNullObj,
          if_pos (show k = "type" ∧ isNullStr Val.quotedNull from ⟨h.1, rfl⟩),
          tagNullObj_idem rest]
      · rw [tagNullObj, if_neg h, tagNullObj,
          if_neg (fun hc => h ⟨hc.1, (isNullStr_tag v).symm.trans hc.2⟩),
          tag_null_types_idem v, tagNullObj_idem rest]

theorem tagNullArr_idem : ∀ l, tagNullArr (tagNullArr l) = tagNullArr l
  | [] => rfl
  | v :: rest => by
      rw [tagNullArr, tagNullArr, tag_null_types_idem v, tagNullArr_idem rest]
end

/-- C10.  The null-tag pass is idempotent: because the `QuotedNull`
wrapper compares equal to `"null"`, a second traversal replaces each
tagged value with an equal one, so applying `_tag_null_types` twice
yields the same tree as applying it once. -/
theorem c10_tag_null_types_idempotent (v : Val) :
    tag_null_types (tag_null_types v) = tag_null_types v :=
  tag_null_types_idem v

/-- A plain (unquoted) string `"null"`. -/
def isStrNull : Val → Bool
  | .str s => s = "null"
  | _ => false

/-- The `QuotedNull` wrapper itself. -/
def isQuoted : Val → Bool
  | .quotedNull => true
  | _ => false

mutual
/-- Number of mapping entries, at any depth, whose key is `type` and
whose value equals the string `"null"` (quoted or not). -/
def countTypeNullLike : Val → Nat
  | .obj kvs => countTypeNullLikeObj kvs
  | .arr l => countTypeNullLikeArr l
  | _ => 0

def countTypeNullLikeObj : List (String × Val) → Nat
  | [] => 0
  | (k, v) :: rest =>
      (if k = "type" ∧ isNullStr v then 1 else 0) + countTypeNullLike v +
        countTypeNullLikeObj rest

def countTypeNullLikeArr : List Val → Nat
  | [] => 0
  | v :: rest => countTypeNullLike v + countTypeNullLikeArr rest
end

mutual
/-- Number of `type` entries, at any depth, already holding the
`QuotedNull` wrapper. -/
def countTypeQuoted : Val → Nat
  | .obj kvs => countTypeQuotedObj kvs
  | .arr l => countTypeQuotedArr l
  | _ => 0

def countTypeQuotedObj : List (String × Val) → Nat
  | [] => 0
  | (k, v) :: rest =>
      (if k = "type" ∧ isQuoted v then 1 else 0) + countTypeQuoted v +
        countTypeQuotedObj rest

def countTypeQuotedArr : List Val → Nat
  | [] => 0
  | v :: rest => countTypeQuoted v + countTypeQuotedArr rest
end

mutual
/-- Number of `type` entries, at any depth, holding the plain string
`"null"` (not yet tagged). -/
def countTypeStrNull : Val → Nat
  | .obj kvs => countTypeStrNullObj kvs
  | .arr l => countTypeStrNullArr l
  | _ => 0

def countTypeStrNullObj : List (String × Val) → Nat
  | [] => 0
  | (k, v) :: rest =>
      (if k = "type" ∧ isStrNull v then 1 else 0) + countTypeStrNull v +
        countTypeStrNullObj rest

def countTypeStrNullArr : List Val → Nat
  | [] => 0
  | v :: rest => countTypeStrNull v + countTypeStrNullArr rest
end

mutual
/-- Number of `QuotedNull` wrappers anywhere in the tree. -/
def countQuotedAll : Val → Nat
  | .quotedNull => 1
  | .obj kvs => countQuotedAllObj kvs
  | .arr l => countQuotedAllArr l
  | _ => 0

def countQuotedAllObj : List (String × Val) → Nat
  | [] => 0
  | (_, v) :: rest => countQuotedAll v + countQuotedAllObj rest

def countQuotedAllArr : List Val → Nat
  | [] => 0
  | v :: rest => countQuotedAll v + countQuotedAllArr rest
end

mutual
/-- Forget the quoting marker: map every `QuotedNull` back to the plain
string `"null"`.  Two trees equal after erasure differ only in which
null markers are tagged for quoting. -/
def eraseQuoted : Val → Val
  | .quotedNull => .str "null"
  | .obj kvs => .obj (eraseQuotedObj kvs)
  | .arr l => .arr (eraseQuotedArr l)
  | .str s => .str s
  | .int n => .int n
  | .bool b => .bool b
  | .null => .null

def eraseQuotedObj : List (String × Val) → List (String × Val)
  | [] => []
  | (k, v) :: rest => (k, eraseQuoted v) :: eraseQuotedObj rest

def eraseQuotedArr : List Val → List Val
  | [] => []
  | v :: rest => eraseQuoted v :: eraseQuotedArr rest
end

theorem countTypeNullLike_of_isNullStr (v : Val) (h : isNullStr v = true) :
    countTypeNullLike v = 0 := by
  cases v <;> first | rfl | exact absurd h (by simp [isNullStr])

theorem countQuotedAll_of_isStrNull (v : Val) (h : isStrNull v = true) :
    countQuotedAll v = 0 := by
  cases v <;> first | rfl | exact absurd h (by simp [isStrNull])

theorem isNullStr_of_isQuoted_tag (v : Val) (h : isQuoted (tag_null_types v) = true) :
    isNullStr v = true := by
  cases v <;> simp_all [tag_null_types, isQuoted, isNullStr]

theorem isStrNull_tag (v : Val) : isStrNull (tag_null_types v) = isStrNull v := by
  cases v <;> rfl

theorem isNullStr_of_isStrNull (v : Val) (h : isStrNull v = true) :
    isNullStr v = true := by
  cases v <;> simp_all [isStrNull, isNullStr]

theorem eraseQuoted_of_isNullStr (v : Val) (h : isNullStr v = true) :
    eraseQuoted v = .str "null" := by
  cases v <;> simp_all [isNullStr, eraseQuoted]

mutual
theorem countTypeQuoted_tag : ∀ v, countTypeQuoted (tag_null_types v) = countTypeNullLike v
  | .str _ => rfl
  | .quotedNull => rfl
  | .int _ => rfl
  | .bool _ => rfl
  | .null => rfl
  | .arr l => countTypeQuotedArr_tag l
  | .obj kvs => countTypeQuotedObj_tag kvs

theorem countTypeQuotedObj_tag :
    ∀ kvs, countTypeQuotedObj (tagNullObj kvs) = countTypeNullLikeObj kvs
  | [] => rfl
  | (k, v) :: rest => by
      by_cases h : k = "type" ∧ isNullStr v
      · rw [tagNullObj, if_pos h, countTypeQuotedObj,
          if_pos (show k = "type" ∧ isQuoted Val.quotedNull from ⟨h.1, rfl⟩),
          countTypeNullLikeObj, if_pos h,
          countTypeQuotedObj_tag rest, countTypeNullLike_of_isNullStr v h.2]
        rfl
      · rw [tagNullObj, if_neg h, countTypeQuotedObj,
          if_neg (fun hc => h ⟨hc.1, isNullStr_of_isQuoted_tag v hc.2⟩),
          countTypeNullLikeObj, if_neg h,
          countTypeQuoted_tag v, countTypeQuotedObj_tag rest]

theorem countTypeQuotedArr_tag :
    ∀ l, countTypeQuotedArr (tagNullArr l) = countTypeNullLikeArr l
  | [] => rfl
  | v :: rest => by
      rw [tagNullArr, countTypeQuotedArr, countTypeNullLikeArr,
        countTypeQuoted_tag v, countTypeQuotedArr_tag rest]
end

mutual
theorem countTypeStrNull_tag : ∀ v, countTypeStrNull (tag_null_types v) = 0
  | .str _ => rfl
  | .quotedNull => rfl
  | .int _ => rfl
  | .bool _ => rfl
  | .null => rfl
  | .arr l => countTypeStrNullArr_tag l
  | .obj kvs => countTypeStrNullObj_tag kvs

theorem countTypeStrNullObj_tag : ∀ kvs, countTypeStrNullObj (tagNullObj kvs) = 0
  | [] => rfl
  | (k, v) :: rest => by
      by_cases h : k = "type" ∧ isNullStr v
      · rw [tagNullObj, if_pos h, countTypeStrNullObj,
          if_neg (fun hc => by simp [isStrNull] at hc),
          countTypeStrNullObj_tag rest]
        rfl
      · rw [tagNullObj, if_neg h, countTypeStrNullObj,
          if_neg (fun hc =>
            h ⟨hc.1, isNullStr_of_isStrNull v ((isStrNull_tag v).symm.trans hc.2)⟩),
          countTypeStrNull_tag v, countTypeStrNullObj_tag rest]

theorem countTypeStrNullArr_tag : ∀ l, countTypeStrNullArr (tagNullArr l) = 0
  | [] => rfl
  | v :: rest => by
      rw [tagNullArr, countTypeStrNullArr, countTypeStrNull_tag v,
        countTypeStrNullArr_tag rest]
end

mutual
theorem eraseQuoted_tag : ∀ v, eraseQuoted (tag_null_types v) = eraseQuoted v
  | .str _ => rfl
  | .quotedNull => rfl
  | .int _ => rfl
  | .bool _ => rfl
  | .null => rfl
  | .arr l => congrArg Val.arr (eraseQuotedArr_tag l)
  | .obj kvs => congrArg Val.obj (eraseQuotedObj_tag kvs)

theorem eraseQuotedObj_tag : ∀ kvs, eraseQuotedObj (tagNullObj kvs) = eraseQuotedObj kvs
  | [] => rfl
  | (k, v) :: rest => by
      by_cases h : k = "type" ∧ isNullStr v
      · rw [tagNullObj, if_pos h, eraseQuotedObj, eraseQuotedObj,
          eraseQuotedObj_tag rest, eraseQuoted_of_isNullStr v h.2]
        rfl
      · rw [tagNullObj, if_neg h, eraseQuotedObj, eraseQuotedObj,
          eraseQuoted_tag v, eraseQuotedObj_tag rest]

theorem eraseQuotedArr_tag : ∀ l, eraseQuotedArr (tagNullArr l) = eraseQuotedArr l
  | [] => rfl
  | v :: rest => by
      rw [tagNullArr, eraseQuotedArr, eraseQuotedArr, eraseQuoted_tag v,
        eraseQuotedArr_tag rest]
end

mutual
theorem countQuotedAll_tag :
    ∀ v, countQuotedAll (tag_null_types v) = countQuotedAll v + countTypeStrNull v
  | .str _ => rfl
  | .quotedNull => rfl
  | .int _ => rfl
  | .bool _ => rfl
  | .null => rfl
  | .arr l => countQuotedAllArr_tag l
  | .obj kvs => countQuotedAllObj_tag kvs

theorem countQuotedAllObj_tag :
    ∀ kvs, countQuotedAllObj (tagNullObj kvs) =
      countQuotedAllObj kvs + countTypeStrNullObj kvs
  | [] => rfl
  | (k, v) :: rest => by
      by_cases h : k = "type" ∧ isNullStr v
      · rw [tagNullObj, if_pos h, countQuotedAllObj, countQuotedAllObj,
          countTypeStrNullObj, countQuotedAllObj_tag rest]
        cases hv : v with
        | str s =>
          have hs : s = "null" := by simpa [isNullStr, hv] using h.2
          subst hs
          rw [if_pos ⟨h.1, by decide⟩]
          simp [countQuotedAll, countTypeStrNull]
          omega
        | quotedNull =>
          rw [if_neg (fun hc => by simp [isStrNull] at hc)]
          simp [countQuotedAll, countTypeStrNull]
          omega
        | int n => exact absurd h.2 (by simp [hv, isNullStr])
        | bool b => exact absurd h.2 (by simp [hv, isNullStr])
        | null => exact absurd h.2 (by simp [hv, isNullStr])
        | arr l => exact absurd h.2 (by simp [hv, isNullStr])
        | obj kvs2 => exact absurd h.2 (by simp [hv, isNullStr])
      · rw [tagNullObj, if_neg h, countQuotedAllObj, countQuotedAllObj,
          countTypeStrNullObj,
          if_neg (fun hc => h ⟨hc.1, isNullStr_of_isStrNull v hc.2⟩),
          countQuotedAll_tag v, countQuotedAllObj_tag rest]
        omega

theorem countQuotedAllArr_tag :
    ∀ l, countQuotedAllArr (tagNullArr l) =
      countQuotedAllArr l + countTypeStrNullArr l
  | [] => rfl
  | v :: rest => by
      rw [tagNullArr, countQuotedAllArr, countQuotedAllArr, countTypeStrNullArr,
        countQuotedAll_tag v, countQuotedAllArr_tag rest]
      omega
end

/-- C8.  For every document tree, after the null-tag pass every one of
the N `{"type": "null"}` occurrences (at any nesting depth, through
mappings and sequences uniformly) holds the `QuotedNull` wrapper
(first conjunct: the tagged count equals the original null count;
second: no untagged `type: "null"` remains), no new wrappers appear
anywhere except at those N positions (third conjunct), and nothing else
in the tree is altered — erasing the quoting marker recovers the
erasure of the original tree (fourth conjunct). -/
theorem c8_tag_null_exhaustive (v : Val) :
    countTypeQuoted (tag_null_types v) = countTypeNullLike v ∧
    countTypeStrNull (tag_null_types v) = 0 ∧
    countQuotedAll (tag_null_types v) = countQuotedAll v + countTypeStrNull v ∧
    eraseQuoted (tag_null_types v) = eraseQuoted v :=
  ⟨countTypeQuoted_tag v, countTypeStrNull_tag v, countQuotedAll_tag v,
   eraseQuoted_tag v⟩

/-!  ## The nullable pass (`fix_nullable`)  -/

/-- The compiled-in rule table: (schema-name suffix, field name,
description override). -/
def NULLABLE_FIELDS : List (String × String × Option String) :=
  [("schema.Response", "completed_at", none),
   ("schema.Response", "error", some "The error that occurred, if the response failed."),
   ("schema.Response", "incomplete_details", some "Details about why the response was incomplete, if applicable."),
   ("schema.Response", "usage", none),
   ("schema.Response", "previous_response_id", none),
   ("schema.Response", "conversation", none),
   ("schema.Response", "instructions", none),
   ("schema.Response", "reasoning", none),
   ("schema.Response", "max_output_tokens", none),
   ("schema.Response", "max_tool_calls", none)]

/-- The stderr warning for a missed schema suffix. -/
def warnSchemaMiss (suffix : String) : String :=
  "  warning: schema ending with '" ++ suffix ++ "' not found"

/-- The stderr warning for a missed field name. -/
def warnFieldMiss (field key : String) : String :=
  "  warning: field '" ++ field ++ "' not found in " ++ key

/-- One iteration of the `fix_nullable` loop: find the schema by
suffix, find the field, apply the description override, and wrap.  A
miss produces a warning and leaves the schemas unchanged. -/
def nullableStep (s : List (String × Val)) (e : String × String × Option String) :
    Option (List (String × Val) × List String) :=
  match findSuffixKey (s.map Prod.fst) e.1 with
  | none => some (s, [warnSchemaMiss e.1])
  | some key =>
    match getKey s key with
    | some (.obj m) =>
      match getKey m "properties" with
      | none => some (s, [warnFieldMiss e.2.1 key])
      | some (.obj p) =>
        match getKey p e.2.1 with
        | none => some (s, [warnFieldMiss e.2.1 key])
        | some (.obj fkvs) =>
          let fkvs1 := match e.2.2 with
            | some d => setKey fkvs "description" (.str d)
            | none => fkvs
          match make_nullable fkvs1 with
          | some f2 =>
              some (setKey s key
                (.obj (setKey m "properties" (.obj (setKey p e.2.1 (.obj f2))))), [])
          | none => none
        | some _ => none
      | some _ => none
    | some _ => none
    | none => none

/-- The `fix_nullable` loop over the rule table, accumulating warnings. -/
def nullableLoop : List (String × String × Option String) → List (String × Val) →
    Option (List (String × Val) × List String)
  | [], s => some (s, [])
  | e :: rest, s =>
    match nullableStep s e with
    | none => none
    | some (s1, w1) =>
      match nullableLoop rest s1 with
      | none => none
      | some (s2, w2) => some (s2, w1 ++ w2)

/-- `fix_nullable`: apply the nullable wrapper to every configured
(schema, field) pair.  When `components.schemas` is missing the loop
runs over a detached empty dict (every entry warns and nothing is
written back), mirroring `spec.get("components", {}).get("schemas", {})`. -/
def fix_nullable (spec : Val) : Option (Val × List String) :=
  match spec with
  | .obj kvs =>
    match getKey kvs "components" with
    | none => (nullableLoop NULLABLE_FIELDS []).map (fun r => (.obj kvs, r.2))
    | some (.obj c) =>
      match getKey c "schemas" with
      | none => (nullableLoop NULLABLE_FIELDS []).map (fun r => (.obj kvs, r.2))
      | some (.obj s) =>
        (nullableLoop NULLABLE_FIELDS s).map (fun r =>
          (.obj (setKey kvs "components" (.obj (setKey c "schemas" (.obj r.1)))), r.2))
      | some _ => none
    | some _ => none
  | _ => none

/-!  ## The Files-API fixes (`fix_files_api`)  -/

/-- The replacement `multipart/form-data` schema installed at
`POST /v1/files` (lines 145-167 of the script). -/
def filesMultipartSchemaVal : Val :=
  .obj [("type", .str "object"),
        ("required", .arr [.str "file", .str "purpose"]),
        ("properties", .obj
          [("file", .obj [("type", .str "string"),
                          ("format", .str "binary"),
                          ("description", .str "File to upload")]),
           ("purpose", .obj [("type", .str "string"),
                             ("description", .str "Purpose: assistants, vision, batch, or fine-tune"),
                             ("enum", .arr [.str "assistants", .str "batch",
                                            .str "fine-tune", .str "vision",
                                            .str "user_data", .str "evals"])])])]

/-- Fix 1 of `fix_files_api`: replace the `multipart/form-data` schema
of `POST /v1/files` and drop the sibling urlencoded entry.  Any missing
link in the chained `.get(..., {})` lookups detaches the rest and the
fix silently does nothing. -/
def filesPart1 (kvs : List (String × Val)) : Option (List (String × Val)) :=
  match getKey kvs "paths" with
  | none => some kvs
  | some (.obj paths) =>
    match getKey paths "/v1/files" with
    | none => some kvs
    | some (.obj pf) =>
      match getKey pf "post" with
      | none => some kvs
      | some (.obj post) =>
        match getKey post "requestBody" with
        | none => some kvs
        | some (.obj rb) =>
          match getKey rb "content" with
          | none => some kvs
          | some (.obj content) =>
            match getKey content "multipart/form-data" with
            | none => some kvs
            | some (.obj mp) =>
                let content1 := setKey content "multipart/form-data"
                  (.obj (setKey mp "schema" filesMultipartSchemaVal))
                let content2 := popKey content1 "application/x-www-form-urlencoded"
                some (setKey kvs "paths" (.obj (setKey paths "/v1/files"
                  (.obj (setKey pf "post" (.obj (setKey post "requestBody"
                    (.obj (setKey rb "content" (.obj content2))))))))))
            | some _ => none
          | some _ => none
        | some _ => none
      | some _ => none
    | some _ => none
  | some _ => none

/-- Fix 2 of `fix_files_api`: delete the top-level `type` key of the
first schema whose key ends with `schema.File`. -/
def filesPart2 (kvs : List (String × Val)) : Option (List (String × Val)) :=
  match getKey kvs "components" with
  | none => some kvs
  | some (.obj c) =>
    match getKey c "schemas" with
    | none => some kvs
    | some (.obj s) =>
      match findSuffixKey (s.map Prod.fst) "schema.File" with
      | none => some kvs
      | some fk =>
        match getKey s fk with
        | some (.obj fsch) =>
            some (setKey kvs "components" (.obj (setKey c "schemas"
              (.obj (setKey s fk (.obj (popKey fsch "type")))))))
        | _ => none
    | some _ => none
  | some _ => none

/-- `fix_files_api`: both Files-API fixes in source order. -/
def fix_files_api (spec : Val) : Option Val :=
  match spec with
  | .obj kvs =>
    match filesPart1 kvs with
    | none => none
    | some kvs1 => (filesPart2 kvs1).map .obj
  | _ => none

/-!  ## The request-body de-wrap (`fix_request_body_oneof`)  -/

/-- Apply a fallible transform to every value of a dict, preserving
keys and order (the Python loops mutate each value in place). -/
def mapValsM (f : Val → Option Val) : List (String × Val) → Option (List (String × Val))
  | [] => some []
  | (k, v) :: rest =>
    match f v with
    | none => none
    | some v2 =>
      match mapValsM f rest with
      | none => none
      | some r2 => some ((k, v2) :: r2)

/-- The loop `for variant in one_of: if "$ref" in variant: ...` —
first `$ref`-bearing variant's reference, scanning in order.  `none`
models the exception on a non-dict variant. -/
def findRefVariant : List Val → Option (Option Val)
  | [] => some none
  | .obj kvs :: rest =>
    match getKey kvs "$ref" with
    | some r => some (some r)
    | none => findRefVariant rest
  | _ :: _ => none

/-- The per-schema core of `fix_request_body_oneof`: a two-element
`oneOf` with a `$ref`-bearing variant is replaced wholesale by that
`$ref`; anything else is left unchanged. -/
def fixMediaSchema (sch : List (String × Val)) : Option (List (String × Val)) :=
  match getKey sch "oneOf" with
  | some (.arr ov) =>
    if ov.length = 2 then
      match findRefVariant ov with
      | none => none
      | some none => some sch
      | some (some r) => some [("$ref", r)]
    else some sch
  | some _ => some sch
  | none => some sch

/-- One content-type's media object: rewrite its `schema` if present. -/
def fixMedia : Val → Option Val
  | .obj m =>
    match getKey m "schema" with
    | some (.obj sch) =>
        (fixMediaSchema sch).map (fun sch2 => .obj (setKey m "schema" (.obj sch2)))
    | some _ => none
    | none => some (.obj m)
  | _ => none

/-- One operation: rewrite every content type of its `requestBody`.
A non-dict operation value is skipped (`if not isinstance(operation,
dict): continue`). -/
def fixOperation : Val → Option Val
  | .obj op =>
    match getKey op "requestBody" with
    | none => some (.obj op)
    | some (.obj rb) =>
      match getKey rb "content" with
      | none => some (.obj op)
      | some (.obj content) =>
          (mapValsM fixMedia content).map (fun c2 =>
            .obj (setKey op "requestBody" (.obj (setKey rb "content" (.obj c2)))))
      | some _ => none
    | some _ => none
  | v => some v

/-- One path's methods dict (must be a dict: `.items()` is called). -/
def fixMethodsVal : Val → Option Val
  | .obj ms => (mapValsM fixOperation ms).map .obj
  | _ => none

/-- `fix_request_body_oneof`: de-wrap swag's bogus two-element `oneOf`
around every requestBody schema. -/
def fix_request_body_oneof (spec : Val) : Option Val :=
  match spec with
  | .obj kvs =>
    match getKey kvs "paths" with
    | none => some (.obj kvs)
    | some (.obj paths) =>
        (mapValsM fixMethodsVal paths).map (fun p2 =>
          .obj (setKey kvs "paths" (.obj p2)))
    | some _ => none
  | _ => none

/-!  ## The response chunking-strategy union (`fix_chunking_strategy_union`)  -/

/-- The inserted `StaticChunkingStrategyResponseParam` variant. -/
def StaticChunkingStrategyResponseParamVal : Val :=
  .obj [("type", .str "object"),
        ("title", .str "Static Chunking Strategy"),
        ("additionalProperties", .bool false),
        ("properties", .obj
          [("type", .obj [("type", .str "string"),
                          ("description", .str "Always `static`."),
                          ("enum", .arr [.str "static"])]),
           ("static", .obj
             [("type", .str "object"),
              ("additionalProperties", .bool false),
              ("properties", .obj
                [("max_chunk_size_tokens", .obj
                   [("type", .str "integer"),
                    ("minimum", .int 100),
                    ("maximum", .int 4096),
                    ("description", .str "The maximum number of tokens in each chunk. The default value is `800`. The minimum value is `100` and the maximum value is `4096`.")]),
                 ("chunk_overlap_tokens", .obj
                   [("type", .str "integer"),
                    ("description", .str "The number of tokens that overlap between chunks. The default value is `400`.\n\nNote that the overlap must not exceed half of `max_chunk_size_tokens`.\n")])]),
              ("required", .arr [.str "max_chunk_size_tokens",
                                 .str "chunk_overlap_tokens"])])]),
        ("required", .arr [.str "type", .str "static"])]

/-- The inserted `OtherChunkingStrategyResponseParam` variant. -/
def OtherChunkingStrategyResponseParamVal : Val :=
  .obj [("type", .str "object"),
        ("title", .str "Other Chunking Strategy"),
        ("description", .str "This is returned when the chunking strategy is unknown. Typically, this is because the file was indexed before the `chunking_strategy` concept was introduced in the API."),
        ("additionalProperties", .bool false),
        ("properties", .obj
          [("type", .obj [("type", .str "string"),
                          ("description", .str "Always `other`."),
                          ("enum", .arr [.str "other"])])]),
        ("required", .arr [.str "type"])]

/-- The replacement value installed at the ChunkingStrategy key. -/
def chunkingStrategyUnionVal : Val :=
  .obj [("type", .str "object"),
        ("description", .str "The strategy used to chunk the file."),
        ("oneOf", .arr
          [.obj [("$ref", .str "#/components/schemas/StaticChunkingStrategyResponseParam")],
           .obj [("$ref", .str "#/components/schemas/OtherChunkingStrategyResponseParam")]])]

/-- `fix_chunking_strategy_union`: when a schema key ending with
`schema.ChunkingStrategy` exists, insert the two named response
variants and replace that schema with the `oneOf` union; when it does
not, return the document unchanged — silently, with no warning (the
returned list is the stderr output of the pass, always empty). -/
def fix_chunking_strategy_union (spec : Val) : Option (Val × List String) :=
  match spec with
  | .obj kvs =>
    match getKey kvs "components" with
    | none => some (.obj kvs, [])
    | some (.obj c) =>
      match getKey c "schemas" with
      | none => some (.obj kvs, [])
      | some (.obj s) =>
        match findSuffixKey (s.map Prod.fst) "schema.ChunkingStrategy" with
        | none => some (.obj kvs, [])
        | some k =>
          let s3 := setKey (setKey (setKey s
            "StaticChunkingStrategyResponseParam" StaticChunkingStrategyResponseParamVal)
            "OtherChunkingStrategyResponseParam" OtherChunkingStrategyResponseParamVal)
            k chunkingStrategyUnionVal
          some (.obj (setKey kvs "components" (.obj (setKey c "schemas" (.obj s3)))), [])
      | some _ => none
    | some _ => none
  | _ => none

/-!  ## The request chunking-strategy union (`fix_request_chunking_strategy`)  -/

/-- The inserted `AutoChunkingStrategyRequestParam` variant. -/
def AutoChunkingStrategyRequestParamVal : Val :=
  .obj [("type", .str "object"),
        ("title", .str "Auto Chunking Strategy"),
        ("description", .str "The default strategy. This strategy currently uses a `max_chunk_size_tokens` of `800` and `chunk_overlap_tokens` of `400`."),
        ("additionalProperties", .bool false),
        ("properties", .obj
          [("type", .obj [("type", .str "string"),
                          ("description", .str "Always `auto`."),
                          ("enum", .arr [.str "auto"])])]),
        ("required", .arr [.str "type"])]

/-- The inserted `StaticChunkingStrategyRequestParam` variant. -/
def StaticChunkingStrategyRequestParamVal : Val :=
  .obj [("type", .str "object"),
        ("title", .str "Static Chunking Strategy"),
        ("description", .str "Customize your own chunking strategy by setting chunk size and chunk overlap."),
        ("additionalProperties", .bool false),
        ("properties", .obj
          [("type", .obj [("type", .str "string"),
                          ("description", .str "Always `static`."),
                          ("enum", .arr [.str "static"])]),
           ("static", .obj
             [("type", .str "object"),
              ("additionalProperties", .bool false),
              ("properties", .obj
                [("max_chunk_size_tokens", .obj
                   [("type", .str "integer"),
                    ("minimum", .int 100),
                    ("maximum", .int 4096),
                    ("description", .str "The maximum number of tokens in each chunk. The default value is `800`. The minimum value is `100` and the maximum value is `4096`.")]),
                 ("chunk_overlap_tokens", .obj
                   [("type", .str "integer"),
                    ("description", .str "The number of tokens that overlap between chunks. The default value is `400`.\n\nNote that the overlap must not exceed half of `max_chunk_size_tokens`.\n")])]),
              ("required", .arr [.str "max_chunk_size_tokens",
                                 .str "chunk_overlap_tokens"])])]),
        ("required", .arr [.str "type", .str "static"])]

/-- The request-side `chunking_strategy` union value. -/
def requestChunkingStrategyVal : Val :=
  .obj [("type", .str "object"),
        ("description", .str "The chunking strategy used to chunk the file(s). If not set, will use the `auto` strategy."),
        ("oneOf", .arr
          [.obj [("$ref", .str "#/components/schemas/AutoChunkingStrategyRequestParam")],
           .obj [("$ref", .str "#/components/schemas/StaticChunkingStrategyRequestParam")]])]

/-- Whether a schema key ends with one of the three request-schema
suffixes of `fix_request_chunking_strategy`. -/
def matchesRequestSuffix (key : String) : Bool :=
  strEndsWith key "schema.CreateVectorStoreRequest" ||
  strEndsWith key "schema.AddVectorStoreFileRequest" ||
  strEndsWith key "schema.CreateVectorStoreFileBatchRequest"

/-- One iteration of the patch loop: if the key matches a request
suffix and its schema has a `chunking_strategy` property, replace that
property with the request union. -/
def patchOne (s : List (String × Val)) (key : String) : Option (List (String × Val)) :=
  if matchesRequestSuffix key then
    match getKey s key with
    | some (.obj m) =>
      match getKey m "properties" with
      | none => some s
      | some (.obj p) =>
        if hasKey p "chunking_strategy" then
          some (setKey s key (.obj (setKey m "properties"
            (.obj (setKey p "chunking_strategy" requestChunkingStrategyVal)))))
        else some s
      | some _ => none
    | _ => none
  else some s

/-- The patch loop over a fixed key list (the dict's keys at loop
entry; the loop only mutates values, never keys). -/
def patchAll : List String → List (String × Val) → Option (List (String × Val))
  | [], s => some s
  | k :: ks, s =>
    match patchOne s k with
    | some s2 => patchAll ks s2
    | none => none

/-- The unconditional inserts of `fix_request_chunking_strategy`
(lines 317-375): both request variants are written into the schemas
dict before the patch loop runs. -/
def reqInserts (s : List (String × Val)) : List (String × Val) :=
  setKey (setKey s
    "AutoChunkingStrategyRequestParam" AutoChunkingStrategyRequestParamVal)
    "StaticChunkingStrategyRequestParam" StaticChunkingStrategyRequestParamVal

/-- `fix_request_chunking_strategy`: insert the two request variants
unconditionally, then patch every request schema matching one of the
three suffixes (the loop iterates the dict's keys, which include the
two just-inserted variants). -/
def fix_request_chunking_strategy (spec : Val) : Option Val :=
  match spec with
  | .obj kvs =>
    match getKey kvs "components" with
    | none => some (.obj kvs)
    | some (.obj c) =>
      match getKey c "schemas" with
      | none => some (.obj kvs)
      | some (.obj s) =>
        match patchAll ((reqInserts s).map Prod.fst) (reqInserts s) with
        | some s3 => some (.obj (setKey kvs "components" (.obj (setKey c "schemas" (.obj s3)))))
        | none => none
      | some _ => none
    | some _ => none
  | _ => none

/-!  ## The search-request fixes (`fix_search_request`)  -/

/-- The replacement `query` field value. -/
def searchQueryVal : Val :=
  .obj [("description", .str "A query string for a search"),
        ("oneOf", .arr
          [.obj [("type", .str "string")],
           .obj [("type", .str "array"),
                 ("items", .obj [("type", .str "string"),
                                 ("description", .str "A list of queries to search for."),
                                 ("minItems", .int 1)])]])]

/-- The inserted `ComparisonFilter` schema. -/
def ComparisonFilterVal : Val :=
  .obj [("type", .str "object"),
        ("title", .str "Comparison filter"),
        ("description", .str "A filter used to compare a specified attribute key to a given value using a defined comparison operation."),
        ("additionalProperties", .bool false),
        ("properties", .obj
          [("type", .obj [("type", .str "string"),
                          ("enum", .arr [.str "eq", .str "ne", .str "gt",
                                         .str "gte", .str "lt", .str "lte"])]),
           ("key", .obj [("type", .str "string")]),
           ("value", .obj [("oneOf", .arr [.obj [("type", .str "string")],
                                           .obj [("type", .str "number")],
                                           .obj [("type", .str "boolean")]])])]),
        ("required", .arr [.str "type", .str "key", .str "value"])]

/-- The inserted `CompoundFilter` schema (self-referential items). -/
def CompoundFilterVal : Val :=
  .obj [("type", .str "object"),
        ("title", .str "Compound filter"),
        ("description", .str "Combine multiple filters using `and` or `or`."),
        ("additionalProperties", .bool false),
        ("properties", .obj
          [("type", .obj [("type", .str "string"),
                          ("enum", .arr [.str "and", .str "or"])]),
           ("filters", .obj
             [("type", .str "array"),
              ("items", .obj [("oneOf", .arr
                [.obj [("$ref", .str "#/components/schemas/ComparisonFilter")],
                 .obj [("$ref", .str "#/components/schemas/CompoundFilter")]])])])]),
        ("required", .arr [.str "type", .str "filters"])]

/-- The replacement `filters` field value. -/
def searchFiltersVal : Val :=
  .obj [("description", .str "A filter to apply based on file attributes."),
        ("oneOf", .arr
          [.obj [("$ref", .str "#/components/schemas/ComparisonFilter")],
           .obj [("$ref", .str "#/components/schemas/CompoundFilter")]])]

/-- `max_num_results` fix: inject `default: 10` into the field schema. -/
def searchMax (p : List (String × Val)) : Option (List (String × Val)) :=
  match getKey p "max_num_results" with
  | none => some p
  | some (.obj fm) => some (setKey p "max_num_results" (.obj (setKey fm "default" (.int 10))))
  | some _ => none

/-- `rewrite_query` fix: inject `default: false` into the field schema. -/
def searchRewrite (p : List (String × Val)) : Option (List (String × Val)) :=
  match getKey p "rewrite_query" with
  | none => some p
  | some (.obj fm) => some (setKey p "rewrite_query" (.obj (setKey fm "default" (.bool false))))
  | some _ => none

/-- The `query` rewrite of `fix_search_request`: replace the field if
present. -/
def searchProps1 (p : List (String × Val)) : List (String × Val) :=
  if hasKey p "query" then setKey p "query" searchQueryVal else p

/-- The `filters` rewrite of `fix_search_request`: insert the two named
filter schemas and replace the field, when present.  Returns the
(schemas, properties) pair after the step. -/
def searchSP (s p1 : List (String × Val)) :
    List (String × Val) × List (String × Val) :=
  if hasKey p1 "filters" then
    (setKey (setKey s "ComparisonFilter" ComparisonFilterVal)
       "CompoundFilter" CompoundFilterVal,
     setKey p1 "filters" searchFiltersVal)
  else (s, p1)

/-- `fix_search_request`: on the first schema whose key ends with
`schema.SearchVectorStoreRequest`, rewrite `query` and `filters`
(inserting the two named filter schemas) and inject the two defaults;
then break. -/
def fix_search_request (spec : Val) : Option Val :=
  match spec with
  | .obj kvs =>
    match getKey kvs "components" with
    | none => some (.obj kvs)
    | some (.obj c) =>
      match getKey c "schemas" with
      | none => some (.obj kvs)
      | some (.obj s) =>
        match findSuffixKey (s.map Prod.fst) "schema.SearchVectorStoreRequest" with
        | none => some (.obj kvs)
        | some key =>
          match getKey s key with
          | some (.obj m) =>
            match getKey m "properties" with
            | none => some (.obj kvs)
            | some (.obj p) =>
              match searchMax (searchSP s (searchProps1 p)).2 with
              | none => none
              | some p3 =>
                match searchRewrite p3 with
                | none => none
                | some p4 =>
                    some (.obj (setKey kvs "components" (.obj (setKey c "schemas"
                      (.obj (setKey (searchSP s (searchProps1 p)).1 key
                        (.obj (setKey m "properties" (.obj p4)))))))))
            | some _ => none
          | some _ => none
          | none => none
      | some _ => none
    | some _ => none
  | _ => none

/-!  ## The pipeline (`main`)  -/

/-- The passes after `fix_nullable`, in `main`'s order, ending with the
null-tag pass; the string list is the accumulated stderr output. -/
def pipelineRest (spec : Val) : Option (Val × List String) :=
  match fix_files_api spec with
  | none => none
  | some s2 =>
    match fix_request_body_oneof s2 with
    | none => none
    | some s3 =>
      match fix_chunking_strategy_union s3 with
      | none => none
      | some (s4, w4) =>
        match fix_request_chunking_strategy s4 with
        | none => none
        | some s5 =>
          match fix_search_request s5 with
          | none => none
          | some s6 => some (tag_null_types s6, w4)

/-- The whole `main` transform: every pass in source order. -/
def pipeline (spec : Val) : Option (Val × List String) :=
  match fix_nullable spec with
  | none => none
  | some (s1, w1) =>
    match pipelineRest s1 with
    | none => none
    | some (s7, w7) => some (s7, w1 ++ w7)


/-!  ## C3: the response chunking-strategy union  -/

/-- Chained mapping lookup along a key path. -/
def getPath : Val → List String → Option Val
  | v, [] => some v
  | .obj kvs, k :: ks =>
    match getKey kvs k with
    | some v => getPath v ks
    | none => none
  | _, _ :: _ => none

/-- The schemas dict after `fix_chunking_strategy_union` found its
target at key `k`: both response variants inserted, then the target
replaced with the union. -/
def csPatch (s : List (String × Val)) (k : String) : List (String × Val) :=
  setKey (setKey (setKey s
    "StaticChunkingStrategyResponseParam" StaticChunkingStrategyResponseParamVal)
    "OtherChunkingStrategyResponseParam" OtherChunkingStrategyResponseParamVal)
    k chunkingStrategyUnionVal

theorem fix_chunking_found_eq (kvs c s : List (String × Val)) (k : String)
    (hc : getKey kvs "components" = some (.obj c))
    (hs : getKey c "schemas" = some (.obj s))
    (hk : findSuffixKey (s.map Prod.fst) "schema.ChunkingStrategy" = some k) :
    fix_chunking_strategy_union (.obj kvs) =
      some (Val.obj (setKey kvs "components" (.obj (setKey c "schemas" (.obj (csPatch s k))))),
        ([] : List String)) := by
  simp [fix_chunking_strategy_union, csPatch, hc, hs, hk]

theorem chunking_target_ne_static (k : String)
    (hk : strEndsWith k "schema.ChunkingStrategy" = true) :
    k ≠ "StaticChunkingStrategyResponseParam" := by
  intro h
  rw [h] at hk
  exact absurd hk (by decide)

theorem chunking_target_ne_other (k : String)
    (hk : strEndsWith k "schema.ChunkingStrategy" = true) :
    k ≠ "OtherChunkingStrategyResponseParam" := by
  intro h
  rw [h] at hk
  exact absurd hk (by decide)

theorem csPatch_target (s : List (String × Val)) (k : String) :
    getKey (csPatch s k) k = some chunkingStrategyUnionVal :=
  getKey_setKey_self _ _ _

theorem csPatch_static (s : List (String × Val)) (k : String)
    (hk : strEndsWith k "schema.ChunkingStrategy" = true) :
    getKey (csPatch s k) "StaticChunkingStrategyResponseParam" =
      some StaticChunkingStrategyResponseParamVal := by
  unfold csPatch
  rw [getKey_setKey_ne _ _ _ _ (Ne.symm (chunking_target_ne_static k hk)),
    getKey_setKey_ne _ _ _ _ (by decide),
    getKey_setKey_self]

theorem csPatch_other (s : List (String × Val)) (k : String)
    (hk : strEndsWith k "schema.ChunkingStrategy" = true) :
    getKey (csPatch s k) "OtherChunkingStrategyResponseParam" =
      some OtherChunkingStrategyResponseParamVal := by
  unfold csPatch
  rw [getKey_setKey_ne _ _ _ _ (Ne.symm (chunking_target_ne_other k hk)),
    getKey_setKey_self]

/-- C3.  After the response chunking-strategy rewrite on a document
whose schemas contain a key ending with `schema.ChunkingStrategy`, that
schema's value is replaced wholesale with a mapping of exactly the keys
`type`, `description`, `oneOf`; the `oneOf` has exactly two entries,
referencing the static variant first and the other variant second; the
static variant's nested `static` object requires
`max_chunk_size_tokens` (minimum 100, maximum 4096) and
`chunk_overlap_tokens`; and the other variant's properties contain only
the discriminator field `type`. -/
theorem c3_response_chunking_union
    (kvs c s : List (String × Val)) (k : String)
    (hc : getKey kvs "components" = some (.obj c))
    (hs : getKey c "schemas" = some (.obj s))
    (hk : findSuffixKey (s.map Prod.fst) "schema.ChunkingStrategy" = some k) :
    ∃ s2 : List (String × Val),
      fix_chunking_strategy_union (.obj kvs) =
        some (Val.obj (setKey kvs "components" (.obj (setKey c "schemas" (.obj s2)))),
          ([] : List String)) ∧
      getKey s2 k = some chunkingStrategyUnionVal ∧
      getKey s2 "StaticChunkingStrategyResponseParam" =
        some StaticChunkingStrategyResponseParamVal ∧
      getKey s2 "OtherChunkingStrategyResponseParam" =
        some OtherChunkingStrategyResponseParamVal ∧
      (∃ u, chunkingStrategyUnionVal = .obj u ∧
        u.map Prod.fst = ["type", "description", "oneOf"] ∧
        getKey u "oneOf" = some (.arr
          [.obj [("$ref", .str "#/components/schemas/StaticChunkingStrategyResponseParam")],
           .obj [("$ref", .str "#/components/schemas/OtherChunkingStrategyResponseParam")]])) ∧
      getPath StaticChunkingStrategyResponseParamVal ["properties", "static", "required"] =
        some (.arr [.str "max_chunk_size_tokens", .str "chunk_overlap_tokens"]) ∧
      getPath StaticChunkingStrategyResponseParamVal
        ["properties", "static", "properties", "max_chunk_size_tokens", "minimum"] =
        some (.int 100) ∧
      getPath StaticChunkingStrategyResponseParamVal
        ["properties", "static", "properties", "max_chunk_size_tokens", "maximum"] =
        some (.int 4096) ∧
      (∃ tv, getPath OtherChunkingStrategyResponseParamVal ["properties"] =
        some (.obj [("type", tv)])) := by
  have he : strEndsWith k "schema.ChunkingStrategy" = true :=
    findSuffixKey_endsWith _ _ _ hk
  refine ⟨csPatch s k, fix_chunking_found_eq kvs c s k hc hs hk,
    csPatch_target s k, csPatch_static s k he, csPatch_other s k he,
    ⟨_, rfl, rfl, rfl⟩, rfl, rfl, rfl, ⟨_, rfl⟩⟩

/-- C3 witness: a two-schema concrete document. -/
theorem c3_response_chunking_union_witness :
    ∃ s2 : List (String × Val),
      fix_chunking_strategy_union (.obj
        [("components", .obj [("schemas", .obj
          [("a.schema.ChunkingStrategy", .obj [("type", .str "object")])])])]) =
        some (Val.obj (setKey [("components", .obj [("schemas", .obj
            [("a.schema.ChunkingStrategy", .obj [("type", .str "object")])])])]
          "components" (.obj (setKey [("schemas", .obj
            [("a.schema.ChunkingStrategy", .obj [("type", .str "object")])])]
          "schemas" (.obj s2)))), ([] : List String)) ∧
      getKey s2 "a.schema.ChunkingStrategy" = some chunkingStrategyUnionVal ∧
      getKey s2 "StaticChunkingStrategyResponseParam" =
        some StaticChunkingStrategyResponseParamVal ∧
      getKey s2 "OtherChunkingStrategyResponseParam" =
        some OtherChunkingStrategyResponseParamVal ∧
      (∃ u, chunkingStrategyUnionVal = .obj u ∧
        u.map Prod.fst = ["type", "description", "oneOf"] ∧
        getKey u "oneOf" = some (.arr
          [.obj [("$ref", .str "#/components/schemas/StaticChunkingStrategyResponseParam")],
           .obj [("$ref", .str "#/components/schemas/OtherChunkingStrategyResponseParam")]])) ∧
      getPath StaticChunkingStrategyResponseParamVal ["properties", "static", "required"] =
        some (.arr [.str "max_chunk_size_tokens", .str "chunk_overlap_tokens"]) ∧
      getPath StaticChunkingStrategyResponseParamVal
        ["properties", "static", "properties", "max_chunk_size_tokens", "minimum"] =
        some (.int 100) ∧
      getPath StaticChunkingStrategyResponseParamVal
        ["properties", "static", "properties", "max_chunk_size_tokens", "maximum"] =
        some (.int 4096) ∧
      (∃ tv, getPath OtherChunkingStrategyResponseParamVal ["properties"] =
        some (.obj [("type", tv)])) :=
  c3_response_chunking_union
    [("components", .obj [("schemas", .obj
      [("a.schema.ChunkingStrategy", .obj [("type", .str "object")])])])]
    [("schemas", .obj [("a.schema.ChunkingStrategy", .obj [("type", .str "object")])])]
    [("a.schema.ChunkingStrategy", .obj [("type", .str "object")])]
    "a.schema.ChunkingStrategy" (by rfl) (by rfl) (by rfl)

/-!  ## C4: insertion behaviour and re-run stability of the union rewriters  -/

theorem find?_append_none {α : Type} (l l₂ : List α) (p : α → Bool)
    (h : l.find? p = none) : (l ++ l₂).find? p = l₂.find? p := by
  induction l with
  | nil => rfl
  | cons hd tl ih =>
    by_cases hp : p hd
    · rw [List.find?_cons_of_pos _ hp] at h
      exact absurd h (by simp)
    · rw [List.find?_cons_of_neg _ (by simpa using hp)] at h
      rw [List.cons_append, List.find?_cons_of_neg _ (by simpa using hp)]
      exact ih h

theorem findSuffixKey_setKey (x : List (String × Val)) (a : String) (v : Val)
    (suffix : String) (h : strEndsWith a suffix = false) :
    findSuffixKey ((setKey x a v).map Prod.fst) suffix =
      findSuffixKey (x.map Prod.fst) suffix := by
  cases hg : getKey x a with
  | some w => rw [keys_setKey_mem x a v w hg]
  | none =>
    rw [keys_setKey_new x a v hg]
    unfold findSuffixKey
    cases hf : (x.map Prod.fst).find? (fun k => strEndsWith k suffix) with
    | some k => rw [find?_append_left _ _ _ _ hf]
    | none =>
      rw [find?_append_none _ _ _ hf]
      simp [List.find?, h]

theorem patchOne_not_matching (s : List (String × Val)) (key : String)
    (h : matchesRequestSuffix key = false) : patchOne s key = some s := by
  simp [patchOne, h]

theorem patchOne_eq_patch (s : List (String × Val)) (key : String)
    (m p : List (String × Val))
    (hm : matchesRequestSuffix key = true)
    (hg : getKey s key = some (.obj m))
    (hq : getKey m "properties" = some (.obj p))
    (hcs : hasKey p "chunking_strategy" = true) :
    patchOne s key = some (setKey s key (.obj (setKey m "properties"
      (.obj (setKey p "chunking_strategy" requestChunkingStrategyVal))))) := by
  simp [patchOne, hm, hg, hq, hcs]

theorem patchOne_eq_noprops (s : List (String × Val)) (key : String)
    (m : List (String × Val))
    (hm : matchesRequestSuffix key = true)
    (hg : getKey s key = some (.obj m))
    (hq : getKey m "properties" = none) :
    patchOne s key = some s := by
  simp [patchOne, hm, hg, hq]

theorem patchOne_eq_nocs (s : List (String × Val)) (key : String)
    (m p : List (String × Val))
    (hm : matchesRequestSuffix key = true)
    (hg : getKey s key = some (.obj m))
    (hq : getKey m "properties" = some (.obj p))
    (hcs : hasKey p "chunking_strategy" = false) :
    patchOne s key = some s := by
  simp [patchOne, hm, hg, hq, hcs]

theorem patchOne_cases (s : List (String × Val)) (key : String)
    (t : List (String × Val)) (hp : patchOne s key = some t) :
    t = s ∨ ∃ m p, matchesRequestSuffix key = true ∧
      getKey s key = some (.obj m) ∧ getKey m "properties" = some (.obj p) ∧
      hasKey p "chunking_strategy" = true ∧
      t = setKey s key (.obj (setKey m "properties"
        (.obj (setKey p "chunking_strategy" requestChunkingStrategyVal)))) := by
  by_cases hm : matchesRequestSuffix key = true
  · cases hg : getKey s key with
    | none =>
      rw [show patchOne s key = none from by simp [patchOne, hm, hg]] at hp
      exact absurd hp (by simp)
    | some v =>
      cases v with
      | obj m =>
        cases hq : getKey m "properties" with
        | none =>
          rw [patchOne_eq_noprops s key m hm hg hq] at hp
          exact Or.inl (by simpa using hp.symm)
        | some v2 =>
          cases v2 with
          | obj p =>
            by_cases hcs : hasKey p "chunking_strategy" = true
            · rw [patchOne_eq_patch s key m p hm hg hq hcs] at hp
              exact Or.inr ⟨m, p, hm, by simp [hg], by simp [hq], hcs,
                by simpa using hp.symm⟩
            · rw [patchOne_eq_nocs s key m p hm hg hq (by simpa using hcs)] at hp
              exact Or.inl (by simpa using hp.symm)
          | str v2s =>
            rw [show patchOne s key = none from by simp [patchOne, hm, hg, hq]] at hp
            exact absurd hp (by simp)
          | quotedNull =>
            rw [show patchOne s key = none from by simp [patchOne, hm, hg, hq]] at hp
            exact absurd hp (by simp)
          | int v2n =>
            rw [show patchOne s key = none from by simp [patchOne, hm, hg, hq]] at hp
            exact absurd hp (by simp)
          | bool v2b =>
            rw [show patchOne s key = none from by simp [patchOne, hm, hg, hq]] at hp
            exact absurd hp (by simp)
          | null =>
            rw [show patchOne s key = none from by simp [patchOne, hm, hg, hq]] at hp
            exact absurd hp (by simp)
          | arr v2l =>
            rw [show patchOne s key = none from by simp [patchOne, hm, hg, hq]] at hp
            exact absurd hp (by simp)
      | str vs =>
        rw [show patchOne s key = none from by simp [patchOne, hm, hg]] at hp
        exact absurd hp (by simp)
      | quotedNull =>
        rw [show patchOne s key = none from by simp [patchOne, hm, hg]] at hp
        exact absurd hp (by simp)
      | int vn =>
        rw [show patchOne s key = none from by simp [patchOne, hm, hg]] at hp
        exact absurd hp (by simp)
      | bool vb =>
        rw [show patchOne s key = none from by simp [patchOne, hm, hg]] at hp
        exact absurd hp (by simp)
      | null =>
        rw [show patchOne s key = none from by simp [patchOne, hm, hg]] at hp
        exact absurd hp (by simp)
      | arr vl =>
        rw [show patchOne s key = none from by simp [patchOne, hm, hg]] at hp
        exact absurd hp (by simp)
  · rw [patchOne_not_matching s key (by simpa using hm)] at hp
    exact Or.inl (by simpa using hp.symm)

theorem patchOne_stable (s : List (String × Val)) (key : String)
    (t : List (String × Val)) (hp : patchOne s key = some t) :
    patchOne t key = some t := by
  rcases patchOne_cases s key t hp with rfl | ⟨m, p, hm, hg, hq, hcs, rfl⟩
  · exact hp
  · have hg' : getKey (setKey s key (.obj (setKey m "properties"
        (.obj (setKey p "chunking_strategy" requestChunkingStrategyVal))))) key =
        some (.obj (setKey m "properties"
          (.obj (setKey p "chunking_strategy" requestChunkingStrategyVal)))) :=
      getKey_setKey_self _ _ _
    rw [patchOne_eq_patch _ key _ _ hm hg' (getKey_setKey_self _ _ _)
      (by simp [hasKey, getKey_setKey_self])]
    rw [setKey_same _ _ _ (getKey_setKey_self _ _ _),
      setKey_same _ _ _ (getKey_setKey_self _ _ _),
      setKey_same _ _ _ hg']

theorem patchOne_of_fixed (s1 s' : List (String × Val)) (key : String)
    (hfix : patchOne s1 key = some s1)
    (hsame : getKey s' key = getKey s1 key) :
    patchOne s' key = some s' := by
  by_cases hm : matchesRequestSuffix key = true
  · cases hg : getKey s1 key with
    | none =>
      rw [show patchOne s1 key = none from by simp [patchOne, hm, hg]] at hfix
      exact absurd hfix (by simp)
    | some v =>
      cases v with
      | obj m =>
        cases hq : getKey m "properties" with
        | none => exact patchOne_eq_noprops s' key m hm (hsame.trans hg) hq
        | some v2 =>
          cases v2 with
          | obj p =>
            by_cases hcs : hasKey p "chunking_strategy" = true
            · rw [patchOne_eq_patch s1 key m p hm hg hq hcs] at hfix
              have hset : setKey s1 key (.obj (setKey m "properties"
                  (.obj (setKey p "chunking_strategy" requestChunkingStrategyVal)))) = s1 := by
                simpa using hfix
              have hgk : getKey s1 key = some (.obj (setKey m "properties"
                  (.obj (setKey p "chunking_strategy" requestChunkingStrategyVal)))) := by
                rw [← hset]
                exact getKey_setKey_self _ _ _
              have hmm : Val.obj m = Val.obj (setKey m "properties"
                  (.obj (setKey p "chunking_strategy" requestChunkingStrategyVal))) :=
                Option.some.inj (hg.symm.trans hgk)
              rw [patchOne_eq_patch s' key m p hm (hsame.trans hg) hq hcs]
              rw [show (Val.obj (setKey m "properties"
                  (.obj (setKey p "chunking_strategy" requestChunkingStrategyVal)))) =
                  Val.obj m from hmm.symm]
              rw [setKey_same _ _ _ (hsame.trans hg)]
            · exact patchOne_eq_nocs s' key m p hm (hsame.trans hg) hq (by simpa using hcs)
          | str v2s =>
            rw [show patchOne s1 key = none from by simp [patchOne, hm, hg, hq]] at hfix
            exact absurd hfix (by simp)
          | quotedNull =>
            rw [show patchOne s1 key = none from by simp [patchOne, hm, hg, hq]] at hfix
            exact absurd hfix (by simp)
          | int v2n =>
            rw [show patchOne s1 key = none from by simp [patchOne, hm, hg, hq]] at hfix
            exact absurd hfix (by simp)
          | bool v2b =>
            rw [show patchOne s1 key = none from by simp [patchOne, hm, hg, hq]] at hfix
            exact absurd hfix (by simp)
          | null =>
            rw [show patchOne s1 key = none from by simp [patchOne, hm, hg, hq]] at hfix
            exact absurd hfix (by simp)
          | arr v2l =>
            rw [show patchOne s1 key = none from by simp [patchOne, hm, hg, hq]] at hfix
            exact absurd hfix (by simp)
      | str vs =>
        rw [show patchOne s1 key = none from by simp [patchOne, hm, hg]] at hfix
        exact absurd hfix (by simp)
      | quotedNull =>
        rw [show patchOne s1 key = none from by simp [patchOne, hm, hg]] at hfix
        exact absurd hfix (by simp)
      | int vn =>
        rw [show patchOne s1 key = none from by simp [patchOne, hm, hg]] at hfix
        exact absurd hfix (by simp)
      | bool vb =>
        rw [show patchOne s1 key = none from by simp [patchOne, hm, hg]] at hfix
        exact absurd hfix (by simp)
      | null =>
        rw [show patchOne s1 key = none from by simp [patchOne, hm, hg]] at hfix
        exact absurd hfix (by simp)
      | arr vl =>
        rw [show patchOne s1 key = none from by simp [patchOne, hm, hg]] at hfix
        exact absurd hfix (by simp)
  · exact patchOne_not_matching s' key (by simpa using hm)

theorem patchOne_getKey_ne (s : List (String × Val)) (key : String)
    (t : List (String × Val)) (a : String) (ha : a ≠ key)
    (hp : patchOne s key = some t) : getKey t a = getKey s a := by
  rcases patchOne_cases s key t hp with rfl | ⟨m, p, _, _, _, _, rfl⟩
  · rfl
  · exact getKey_setKey_ne _ _ _ _ ha

theorem patchOne_getKey_nonmatching (s : List (String × Val)) (key : String)
    (t : List (String × Val)) (a : String)
    (ha : matchesRequestSuffix a = false)
    (hp : patchOne s key = some t) : getKey t a = getKey s a := by
  by_cases hak : a = key
  · subst hak
    rw [patchOne_not_matching s a ha] at hp
    rw [Option.some.inj hp]
  · exact patchOne_getKey_ne s key t a hak hp

theorem patchOne_keys (s : List (String × Val)) (key : String)
    (t : List (String × Val)) (hp : patchOne s key = some t) :
    t.map Prod.fst = s.map Prod.fst := by
  rcases patchOne_cases s key t hp with rfl | ⟨m, p, _, hg, _, _, rfl⟩
  · rfl
  · exact keys_setKey_mem _ _ _ _ hg

theorem patchAll_nil (s : List (String × Val)) : patchAll [] s = some s := rfl

theorem patchAll_cons_eq (k : String) (ks : List String)
    (s s1 : List (String × Val)) (h1 : patchOne s k = some s1) :
    patchAll (k :: ks) s = patchAll ks s1 := by
  show (match patchOne s k with
        | some s2 => patchAll ks s2
        | none => none) = patchAll ks s1
  rw [h1]

theorem patchAll_cons_none (k : String) (ks : List String)
    (s : List (String × Val)) (h1 : patchOne s k = none) :
    patchAll (k :: ks) s = none := by
  show (match patchOne s k with
        | some s2 => patchAll ks s2
        | none => none) = none
  rw [h1]

theorem patchAll_keys : ∀ (ks : List String) (s t : List (String × Val)),
    patchAll ks s = some t → t.map Prod.fst = s.map Prod.fst
  | [], s, t, hp => by rw [Option.some.inj hp]
  | k :: ks, s, t, hp => by
    cases h1 : patchOne s k with
    | none => rw [patchAll_cons_none k ks s h1] at hp; exact absurd hp (by simp)
    | some s1 =>
      rw [patchAll_cons_eq k ks s s1 h1] at hp
      exact (patchAll_keys ks s1 t hp).trans (patchOne_keys s k s1 h1)

theorem patchAll_getKey_nonmatching :
    ∀ (ks : List String) (s t : List (String × Val)) (a : String),
    matchesRequestSuffix a = false → patchAll ks s = some t →
    getKey t a = getKey s a
  | [], s, t, a, _, hp => by rw [Option.some.inj hp]
  | k :: ks, s, t, a, ha, hp => by
    cases h1 : patchOne s k with
    | none => rw [patchAll_cons_none k ks s h1] at hp; exact absurd hp (by simp)
    | some s1 =>
      rw [patchAll_cons_eq k ks s s1 h1] at hp
      exact (patchAll_getKey_nonmatching ks s1 t a ha hp).trans
        (patchOne_getKey_nonmatching s k s1 a ha h1)

theorem patchAll_getKey_notin :
    ∀ (ks : List String) (s t : List (String × Val)) (a : String),
    a ∉ ks → patchAll ks s = some t → getKey t a = getKey s a
  | [], s, t, a, _, hp => by rw [Option.some.inj hp]
  | k :: ks, s, t, a, ha, hp => by
    cases h1 : patchOne s k with
    | none => rw [patchAll_cons_none k ks s h1] at hp; exact absurd hp (by simp)
    | some s1 =>
      rw [patchAll_cons_eq k ks s s1 h1] at hp
      have hne : a ≠ k := by
        intro hc
        subst hc
        exact ha (List.mem_cons_self _ _)
      have hnin : a ∉ ks := fun hc => ha (List.mem_cons_of_mem _ hc)
      exact (patchAll_getKey_notin ks s1 t a hnin hp).trans
        (patchOne_getKey_ne s k s1 a hne h1)

theorem patchAll_stable : ∀ (ks : List String) (s t : List (String × Val)),
    ks.Nodup → patchAll ks s = some t → patchAll ks t = some t
  | [], s, t, _, hp => by rw [Option.some.inj hp] at hp ⊢; exact hp
  | k :: ks, s, t, hnd, hp => by
    rw [List.nodup_cons] at hnd
    cases h1 : patchOne s k with
    | none => rw [patchAll_cons_none k ks s h1] at hp; exact absurd hp (by simp)
    | some s1 =>
      rw [patchAll_cons_eq k ks s s1 h1] at hp
      have hfix : patchOne s1 k = some s1 := patchOne_stable s k s1 h1
      have hsame : getKey t k = getKey s1 k :=
        patchAll_getKey_notin ks s1 t k hnd.1 hp
      have h2 : patchOne t k = some t := patchOne_of_fixed s1 t k hfix hsame
      rw [patchAll_cons_eq k ks t t h2]
      exact patchAll_stable ks s1 t hnd.2 hp

theorem mem_keys_setKey (s : List (String × Val)) (k : String) (v : Val)
    (a : String) (h : a ∈ s.map Prod.fst) : a ∈ (setKey s k v).map Prod.fst := by
  cases hg : getKey s k with
  | some w => rw [keys_setKey_mem s k v w hg]; exact h
  | none => rw [keys_setKey_new s k v hg]; exact List.mem_append_left _ h

theorem csPatch_csPatch (s : List (String × Val)) (k : String)
    (he : strEndsWith k "schema.ChunkingStrategy" = true) :
    csPatch (csPatch s k) k = csPatch s k := by
  show setKey (setKey (setKey (csPatch s k)
      "StaticChunkingStrategyResponseParam" StaticChunkingStrategyResponseParamVal)
      "OtherChunkingStrategyResponseParam" OtherChunkingStrategyResponseParamVal)
      k chunkingStrategyUnionVal = csPatch s k
  rw [setKey_same _ _ _ (csPatch_static s k he),
    setKey_same _ _ _ (csPatch_other s k he),
    setKey_same _ _ _ (csPatch_target s k)]

theorem findSuffixKey_csPatch (s : List (String × Val)) (k : String)
    (hk : findSuffixKey (s.map Prod.fst) "schema.ChunkingStrategy" = some k) :
    findSuffixKey ((csPatch s k).map Prod.fst) "schema.ChunkingStrategy" = some k := by
  have hmem : k ∈ s.map Prod.fst := findSuffixKey_mem _ _ _ hk
  have hmem2 : k ∈ (setKey (setKey s
      "StaticChunkingStrategyResponseParam" StaticChunkingStrategyResponseParamVal)
      "OtherChunkingStrategyResponseParam" OtherChunkingStrategyResponseParamVal).map Prod.fst :=
    mem_keys_setKey _ _ _ _ (mem_keys_setKey _ _ _ _ hmem)
  have hsome : (getKey (setKey (setKey s
      "StaticChunkingStrategyResponseParam" StaticChunkingStrategyResponseParamVal)
      "OtherChunkingStrategyResponseParam" OtherChunkingStrategyResponseParamVal) k).isSome =
      true := (getKey_isSome_iff_mem _ _).2 hmem2
  obtain ⟨w', hw⟩ := Option.isSome_iff_exists.mp hsome
  show findSuffixKey ((setKey _ k chunkingStrategyUnionVal).map Prod.fst) _ = some k
  rw [keys_setKey_mem _ _ _ _ hw,
    findSuffixKey_setKey _ _ _ _ (by decide),
    findSuffixKey_setKey _ _ _ _ (by decide)]
  exact hk

/-- Re-running the response rewriter on its own output returns the
output unchanged. -/
theorem fix_chunking_rerun (spec spec' : Val) (w : List String)
    (h : fix_chunking_strategy_union spec = some (spec', w)) :
    fix_chunking_strategy_union spec' = some (spec', []) := by
  cases spec with
  | str s => exact absurd h (by simp [fix_chunking_strategy_union])
  | quotedNull => exact absurd h (by simp [fix_chunking_strategy_union])
  | int n => exact absurd h (by simp [fix_chunking_strategy_union])
  | bool b => exact absurd h (by simp [fix_chunking_strategy_union])
  | null => exact absurd h (by simp [fix_chunking_strategy_union])
  | arr l => exact absurd h (by simp [fix_chunking_strategy_union])
  | obj kvs =>
    cases hc : getKey kvs "components" with
    | none =>
      rw [show fix_chunking_strategy_union (.obj kvs) = some (.obj kvs, []) from
        by simp [fix_chunking_strategy_union, hc]] at h
      injection (Option.some.inj h) with ha hb
      subst ha
      simp [fix_chunking_strategy_union, hc]
    | some cv =>
      cases cv with
      | obj c =>
        cases hs : getKey c "schemas" with
        | none =>
          rw [show fix_chunking_strategy_union (.obj kvs) = some (.obj kvs, []) from
            by simp [fix_chunking_strategy_union, hc, hs]] at h
          injection (Option.some.inj h) with ha hb
          subst ha
          simp [fix_chunking_strategy_union, hc, hs]
        | some sv =>
          cases sv with
          | obj s =>
            cases hk : findSuffixKey (s.map Prod.fst) "schema.ChunkingStrategy" with
            | none =>
              rw [show fix_chunking_strategy_union (.obj kvs) = some (.obj kvs, []) from
                by simp [fix_chunking_strategy_union, hc, hs, hk]] at h
              injection (Option.some.inj h) with ha hb
              subst ha
              simp [fix_chunking_strategy_union, hc, hs, hk]
            | some k =>
              rw [fix_chunking_found_eq kvs c s k hc hs hk] at h
              injection (Option.some.inj h) with ha hb
              subst ha
              have he : strEndsWith k "schema.ChunkingStrategy" = true :=
                findSuffixKey_endsWith _ _ _ hk
              have hc' : getKey (setKey kvs "components"
                  (.obj (setKey c "schemas" (.obj (csPatch s k))))) "components" =
                  some (.obj (setKey c "schemas" (.obj (csPatch s k)))) :=
                getKey_setKey_self _ _ _
              have hs' : getKey (setKey c "schemas" (.obj (csPatch s k))) "schemas" =
                  some (.obj (csPatch s k)) := getKey_setKey_self _ _ _
              rw [fix_chunking_found_eq _ _ _ k hc' hs' (findSuffixKey_csPatch s k hk)]
              rw [csPatch_csPatch s k he]
              rw [setKey_same _ _ _ hs', setKey_same _ _ _ hc']
          | str ss => exact absurd h (by simp [fix_chunking_strategy_union, hc, hs])
          | quotedNull => exact absurd h (by simp [fix_chunking_strategy_union, hc, hs])
          | int sn => exact absurd h (by simp [fix_chunking_strategy_union, hc, hs])
          | bool sb => exact absurd h (by simp [fix_chunking_strategy_union, hc, hs])
          | null => exact absurd h (by simp [fix_chunking_strategy_union, hc, hs])
          | arr sl => exact absurd h (by simp [fix_chunking_strategy_union, hc, hs])
      | str cs => exact absurd h (by simp [fix_chunking_strategy_union, hc])
      | quotedNull => exact absurd h (by simp [fix_chunking_strategy_union, hc])
      | int cn => exact absurd h (by simp [fix_chunking_strategy_union, hc])
      | bool cb => exact absurd h (by simp [fix_chunking_strategy_union, hc])
      | null => exact absurd h (by simp [fix_chunking_strategy_union, hc])
      | arr cl => exact absurd h (by simp [fix_chunking_strategy_union, hc])

theorem reqInserts_auto (s : List (String × Val)) :
    getKey (reqInserts s) "AutoChunkingStrategyRequestParam" =
      some AutoChunkingStrategyRequestParamVal := by
  unfold reqInserts
  rw [getKey_setKey_ne _ _ _ _ (by decide), getKey_setKey_self]

theorem reqInserts_static (s : List (String × Val)) :
    getKey (reqInserts s) "StaticChunkingStrategyRequestParam" =
      some StaticChunkingStrategyRequestParamVal :=
  getKey_setKey_self _ _ _

theorem auto_not_request_target :
    matchesRequestSuffix "AutoChunkingStrategyRequestParam" = false := by decide

theorem static_not_request_target :
    matchesRequestSuffix "StaticChunkingStrategyRequestParam" = false := by decide

theorem fix_request_eq_some (kvs c s s3 : List (String × Val))
    (hc : getKey kvs "components" = some (.obj c))
    (hs : getKey c "schemas" = some (.obj s))
    (hpa : patchAll ((reqInserts s).map Prod.fst) (reqInserts s) = some s3) :
    fix_request_chunking_strategy (.obj kvs) =
      some (.obj (setKey kvs "components" (.obj (setKey c "schemas" (.obj s3))))) := by
  simp [fix_request_chunking_strategy, hc, hs, hpa]

theorem fix_request_inv (kvs c s : List (String × Val)) (spec' : Val)
    (hc : getKey kvs "components" = some (.obj c))
    (hs : getKey c "schemas" = some (.obj s))
    (hrun : fix_request_chunking_strategy (.obj kvs) = some spec') :
    ∃ s3, patchAll ((reqInserts s).map Prod.fst) (reqInserts s) = some s3 ∧
      spec' = .obj (setKey kvs "components" (.obj (setKey c "schemas" (.obj s3)))) := by
  cases hpa : patchAll ((reqInserts s).map Prod.fst) (reqInserts s) with
  | none =>
    rw [show fix_request_chunking_strategy (.obj kvs) = none from
      by simp [fix_request_chunking_strategy, hc, hs, hpa]] at hrun
    exact absurd hrun (by simp)
  | some s3 =>
    rw [fix_request_eq_some kvs c s s3 hc hs hpa] at hrun
    exact ⟨s3, rfl, (Option.some.inj hrun).symm⟩

/-- The request rewriter inserts both named variants whenever
`components.schemas` exists, regardless of whether a target is found. -/
theorem fix_request_inserts (kvs c s : List (String × Val)) (spec' : Val)
    (hc : getKey kvs "components" = some (.obj c))
    (hs : getKey c "schemas" = some (.obj s))
    (hrun : fix_request_chunking_strategy (.obj kvs) = some spec') :
    ∃ kvs2 c2 s3, spec' = .obj kvs2 ∧
      getKey kvs2 "components" = some (.obj c2) ∧
      getKey c2 "schemas" = some (.obj s3) ∧
      getKey s3 "AutoChunkingStrategyRequestParam" =
        some AutoChunkingStrategyRequestParamVal ∧
      getKey s3 "StaticChunkingStrategyRequestParam" =
        some StaticChunkingStrategyRequestParamVal := by
  obtain ⟨s3, hpa, rfl⟩ := fix_request_inv kvs c s spec' hc hs hrun
  refine ⟨_, _, s3, rfl, getKey_setKey_self _ _ _, getKey_setKey_self _ _ _, ?_, ?_⟩
  · rw [patchAll_getKey_nonmatching _ _ _ _ auto_not_request_target hpa]
    exact reqInserts_auto s
  · rw [patchAll_getKey_nonmatching _ _ _ _ static_not_request_target hpa]
    exact reqInserts_static s

/-- Re-running the request rewriter on its own output returns the
output unchanged (schemas keys are unique, as in any Python dict). -/
theorem fix_request_rerun (kvs c s : List (String × Val)) (spec' : Val)
    (hc : getKey kvs "components" = some (.obj c))
    (hs : getKey c "schemas" = some (.obj s))
    (hnd : (s.map Prod.fst).Nodup)
    (hrun : fix_request_chunking_strategy (.obj kvs) = some spec') :
    fix_request_chunking_strategy spec' = some spec' := by
  obtain ⟨s3, hpa, rfl⟩ := fix_request_inv kvs c s spec' hc hs hrun
  have hA : getKey s3 "AutoChunkingStrategyRequestParam" =
      some AutoChunkingStrategyRequestParamVal := by
    rw [patchAll_getKey_nonmatching _ _ _ _ auto_not_request_target hpa]
    exact reqInserts_auto s
  have hB : getKey s3 "StaticChunkingStrategyRequestParam" =
      some StaticChunkingStrategyRequestParamVal := by
    rw [patchAll_getKey_nonmatching _ _ _ _ static_not_request_target hpa]
    exact reqInserts_static s
  have hri : reqInserts s3 = s3 := by
    unfold reqInserts
    rw [setKey_same _ _ _ hA, setKey_same _ _ _ hB]
  have hkeys : s3.map Prod.fst = (reqInserts s).map Prod.fst := patchAll_keys _ _ _ hpa
  have hnd2 : ((reqInserts s).map Prod.fst).Nodup := by
    unfold reqInserts
    exact nodup_keys_setKey _ _ _ (nodup_keys_setKey _ _ _ hnd)
  have hpa2 : patchAll ((reqInserts s).map Prod.fst) s3 = some s3 :=
    patchAll_stable _ _ _ hnd2 hpa
  have hpa3 : patchAll ((reqInserts s3).map Prod.fst) (reqInserts s3) = some s3 := by
    rw [hri, hkeys]
    exact hpa2
  have hc' : getKey (setKey kvs "components"
      (.obj (setKey c "schemas" (.obj s3)))) "components" =
      some (.obj (setKey c "schemas" (.obj s3))) := getKey_setKey_self _ _ _
  have hs' : getKey (setKey c "schemas" (.obj s3)) "schemas" = some (.obj s3) :=
    getKey_setKey_self _ _ _
  rw [fix_request_eq_some _ _ s3 s3 hc' hs' hpa3]
  rw [setKey_same _ _ _ hs', setKey_same _ _ _ hc']

/-- C4 counterexample: on a document whose `components.schemas` exists
but contains no key ending with `schema.ChunkingStrategy`, the response
rewriter returns the document unchanged — `StaticChunkingStrategyResponseParam`
and `OtherChunkingStrategyResponseParam` are NOT inserted, contradicting
"inserts its named variant Schema Objects ... unconditionally ...
regardless of whether the rewriter's target schema is found". -/
theorem c4_counterexample :
    fix_chunking_strategy_union (.obj [("components", .obj [("schemas", .obj [])])]) =
      some (.obj [("components", .obj [("schemas", .obj [])])], []) ∧
    getPath (.obj [("components", .obj [("schemas", .obj [])])])
      ["components", "schemas", "StaticChunkingStrategyResponseParam"] = none ∧
    getPath (.obj [("components", .obj [("schemas", .obj [])])])
      ["components", "schemas", "OtherChunkingStrategyResponseParam"] = none :=
  ⟨rfl, rfl, rfl⟩

/-- C4 (amended).  The response rewriter inserts its named variants
only when a schema key ending with the chunking-strategy suffix is
found, returning the document unchanged (inserting nothing) otherwise;
the request rewriter inserts `AutoChunkingStrategyRequestParam` and
`StaticChunkingStrategyRequestParam` into an existing
`components.schemas` mapping unconditionally, regardless of whether any
target request schema is found; and re-running either rewriter on its
own output returns it unchanged, because re-insertion installs
identical values. -/
theorem c4_variant_insertion_amended :
    (∀ kvs c s, getKey kvs "components" = some (.obj c) →
      getKey c "schemas" = some (.obj s) →
      findSuffixKey (s.map Prod.fst) "schema.ChunkingStrategy" = none →
      fix_chunking_strategy_union (.obj kvs) = some (.obj kvs, [])) ∧
    (∀ kvs c s spec', getKey kvs "components" = some (.obj c) →
      getKey c "schemas" = some (.obj s) →
      fix_request_chunking_strategy (.obj kvs) = some spec' →
      ∃ kvs2 c2 s3, spec' = .obj kvs2 ∧
        getKey kvs2 "components" = some (.obj c2) ∧
        getKey c2 "schemas" = some (.obj s3) ∧
        getKey s3 "AutoChunkingStrategyRequestParam" =
          some AutoChunkingStrategyRequestParamVal ∧
        getKey s3 "StaticChunkingStrategyRequestParam" =
          some StaticChunkingStrategyRequestParamVal) ∧
    (∀ spec spec' w, fix_chunking_strategy_union spec = some (spec', w) →
      fix_chunking_strategy_union spec' = some (spec', [])) ∧
    (∀ kvs c s spec', getKey kvs "components" = some (.obj c) →
      getKey c "schemas" = some (.obj s) →
      (s.map Prod.fst).Nodup →
      fix_request_chunking_strategy (.obj kvs) = some spec' →
      fix_request_chunking_strategy spec' = some spec') := by
  refine ⟨?_, ?_, ?_, ?_⟩
  · intro kvs c s hc hs hk
    simp [fix_chunking_strategy_union, hc, hs, hk]
  · intro kvs c s spec' hc hs hrun
    exact fix_request_inserts kvs c s spec' hc hs hrun
  · intro spec spec' w h
    exact fix_chunking_rerun spec spec' w h
  · intro kvs c s spec' hc hs hnd hrun
    exact fix_request_rerun kvs c s spec' hc hs hnd hrun

/-- C4 witness: every conjunct of the amended claim applied at a
concrete document. -/
theorem c4_variant_insertion_amended_witness :
    fix_chunking_strategy_union (.obj [("components", .obj [("schemas", .obj [])])]) =
      some (.obj [("components", .obj [("schemas", .obj [])])], []) ∧
    (∃ kvs2 c2 s3,
      (Val.obj [("components", .obj [("schemas", .obj (reqInserts []))])]) = .obj kvs2 ∧
      getKey kvs2 "components" = some (.obj c2) ∧
      getKey c2 "schemas" = some (.obj s3) ∧
      getKey s3 "AutoChunkingStrategyRequestParam" =
        some AutoChunkingStrategyRequestParamVal ∧
      getKey s3 "StaticChunkingStrategyRequestParam" =
        some StaticChunkingStrategyRequestParamVal) ∧
    fix_chunking_strategy_union (.obj [("components", .obj [("schemas", .obj
      [("a.schema.ChunkingStrategy", chunkingStrategyUnionVal),
       ("StaticChunkingStrategyResponseParam", StaticChunkingStrategyResponseParamVal),
       ("OtherChunkingStrategyResponseParam", OtherChunkingStrategyResponseParamVal)])])]) =
      some (.obj [("components", .obj [("schemas", .obj
        [("a.schema.ChunkingStrategy", chunkingStrategyUnionVal),
         ("StaticChunkingStrategyResponseParam", StaticChunkingStrategyResponseParamVal),
         ("OtherChunkingStrategyResponseParam", OtherChunkingStrategyResponseParamVal)])])], []) ∧
    fix_request_chunking_strategy
      (.obj [("components", .obj [("schemas", .obj (reqInserts []))])]) =
      some (.obj [("components", .obj [("schemas", .obj (reqInserts []))])]) := by
  refine ⟨?_, ?_, ?_, ?_⟩
  · exact c4_variant_insertion_amended.1 [("components", .obj [("schemas", .obj [])])]
      [("schemas", .obj [])] [] (by rfl) (by rfl) (by rfl)
  · exact c4_variant_insertion_amended.2.1 [("components", .obj [("schemas", .obj [])])]
      [("schemas", .obj [])] [] _ (by rfl) (by rfl) (by rfl)
  · exact c4_variant_insertion_amended.2.2.1
      (.obj [("components", .obj [("schemas", .obj
        [("a.schema.ChunkingStrategy", .obj [])])])]) _ [] (by rfl)
  · exact c4_variant_insertion_amended.2.2.2
      [("components", .obj [("schemas", .obj (reqInserts []))])]
      [("schemas", .obj (reqInserts []))] (reqInserts []) _
      (by rfl) (by rfl) (by decide) (by rfl)

/-!  ## C5: the request-body de-wrap  -/

/-- Python `variant["$ref"]` when the variant is a mapping. -/
def refValOf : Val → Option Val
  | .obj kvs => getKey kvs "$ref"
  | _ => none

/-- The first `$ref`-bearing variant's reference, per the claim's
wording (non-mapping variants simply bear no `$ref`). -/
def refScan : List Val → Option Val
  | [] => none
  | v :: rest =>
    match refValOf v with
    | some r => some r
    | none => refScan rest

/-- Modelled from the claim's wording, to be compared with the code's
`fixMediaSchema`: a media schema that was a two-element `oneOf`
sequence with at least one `$ref`-bearing variant becomes exactly
`{"$ref": r}` for the first such variant's reference `r`; every other
schema is left unchanged. -/
def requestBodyDewrapSpec (sch : List (String × Val)) : List (String × Val) :=
  match getKey sch "oneOf" with
  | some (.arr ov) =>
    if ov.length = 2 then
      match refScan ov with
      | some r => [("$ref", r)]
      | none => sch
    else sch
  | _ => sch

theorem findRefVariant_sound : ∀ (l : List Val) (res : Option Val),
    findRefVariant l = some res → refScan l = res
  | [], res, h => by
    simpa [refScan] using Option.some.inj h
  | v :: rest, res, h => by
    cases v with
    | obj kvs =>
      cases hr : getKey kvs "$ref" with
      | some r =>
        rw [show findRefVariant (Val.obj kvs :: rest) = some (some r) from
          by simp [findRefVariant, hr]] at h
        obtain rfl : res = some r := (Option.some.inj h).symm
        simp [refScan, refValOf, hr]
      | none =>
        rw [show findRefVariant (Val.obj kvs :: rest) = findRefVariant rest from
          by simp [findRefVariant, hr]] at h
        rw [show refScan (Val.obj kvs :: rest) = refScan rest from
          by simp [refScan, refValOf, hr]]
        exact findRefVariant_sound rest res h
    | str s => exact absurd h (by simp [findRefVariant])
    | quotedNull => exact absurd h (by simp [findRefVariant])
    | int n => exact absurd h (by simp [findRefVariant])
    | bool b => exact absurd h (by simp [findRefVariant])
    | null => exact absurd h (by simp [findRefVariant])
    | arr l2 => exact absurd h (by simp [findRefVariant])

/-- The code's per-schema de-wrap agrees with the claim's description
wherever it does not raise. -/
theorem fixMediaSchema_eq_spec (sch sch' : List (String × Val))
    (h : fixMediaSchema sch = some sch') : sch' = requestBodyDewrapSpec sch := by
  cases ho : getKey sch "oneOf" with
  | none =>
    rw [show fixMediaSchema sch = some sch from by simp [fixMediaSchema, ho]] at h
    simp [requestBodyDewrapSpec, ho]
    exact (Option.some.inj h).symm
  | some v =>
    cases v with
    | arr ov =>
      by_cases hl : ov.length = 2
      · cases hf : findRefVariant ov with
        | none =>
          rw [show fixMediaSchema sch = none from
            by simp [fixMediaSchema, ho, hl, hf]] at h
          exact absurd h (by simp)
        | some res =>
          have hrs := findRefVariant_sound ov res hf
          cases res with
          | none =>
            rw [show fixMediaSchema sch = some sch from
              by simp [fixMediaSchema, ho, hl, hf]] at h
            rw [show requestBodyDewrapSpec sch = sch from
              by simp [requestBodyDewrapSpec, ho, hl, hrs]]
            exact (Option.some.inj h).symm
          | some r =>
            rw [show fixMediaSchema sch = some [("$ref", r)] from
              by simp [fixMediaSchema, ho, hl, hf]] at h
            rw [show requestBodyDewrapSpec sch = [("$ref", r)] from
              by simp [requestBodyDewrapSpec, ho, hl, hrs]]
            exact (Option.some.inj h).symm
      · rw [show fixMediaSchema sch = some sch from
          by simp [fixMediaSchema, ho, hl]] at h
        rw [show requestBodyDewrapSpec sch = sch from
          by simp [requestBodyDewrapSpec, ho, hl]]
        exact (Option.some.inj h).symm
    | str s =>
      rw [show fixMediaSchema sch = some sch from by simp [fixMediaSchema, ho]] at h
      rw [show requestBodyDewrapSpec sch = sch from by simp [requestBodyDewrapSpec, ho]]
      exact (Option.some.inj h).symm
    | quotedNull =>
      rw [show fixMediaSchema sch = some sch from by simp [fixMediaSchema, ho]] at h
      rw [show requestBodyDewrapSpec sch = sch from by simp [requestBodyDewrapSpec, ho]]
      exact (Option.some.inj h).symm
    | int n =>
      rw [show fixMediaSchema sch = some sch from by simp [fixMediaSchema, ho]] at h
      rw [show requestBodyDewrapSpec sch = sch from by simp [requestBodyDewrapSpec, ho]]
      exact (Option.some.inj h).symm
    | bool b =>
      rw [show fixMediaSchema sch = some sch from by simp [fixMediaSchema, ho]] at h
      rw [show requestBodyDewrapSpec sch = sch from by simp [requestBodyDewrapSpec, ho]]
      exact (Option.some.inj h).symm
    | null =>
      rw [show fixMediaSchema sch = some sch from by simp [fixMediaSchema, ho]] at h
      rw [show requestBodyDewrapSpec sch = sch from by simp [requestBodyDewrapSpec, ho]]
      exact (Option.some.inj h).symm
    | obj kvs2 =>
      rw [show fixMediaSchema sch = some sch from by simp [fixMediaSchema, ho]] at h
      rw [show requestBodyDewrapSpec sch = sch from by simp [requestBodyDewrapSpec, ho]]
      exact (Option.some.inj h).symm

theorem mapValsM_cons_inv (f : Val → Option Val) (k0 : String) (v0 : Val)
    (rest l2 : List (String × Val))
    (hm : mapValsM f ((k0, v0) :: rest) = some l2) :
    ∃ v2 r2, f v0 = some v2 ∧ mapValsM f rest = some r2 ∧ l2 = (k0, v2) :: r2 := by
  cases hf : f v0 with
  | none =>
    rw [show mapValsM f ((k0, v0) :: rest) = none from by simp [mapValsM, hf]] at hm
    exact absurd hm (by simp)
  | some v2 =>
    cases hr : mapValsM f rest with
    | none =>
      rw [show mapValsM f ((k0, v0) :: rest) = none from by simp [mapValsM, hf, hr]] at hm
      exact absurd hm (by simp)
    | some r2 =>
      rw [show mapValsM f ((k0, v0) :: rest) = some ((k0, v2) :: r2) from
        by simp [mapValsM, hf, hr]] at hm
      exact ⟨v2, r2, rfl, rfl, (Option.some.inj hm).symm⟩

theorem mapValsM_getKey (f : Val → Option Val) :
    ∀ (l l2 : List (String × Val)) (k : String) (v : Val),
    mapValsM f l = some l2 → getKey l k = some v →
    ∃ v2, f v = some v2 ∧ getKey l2 k = some v2
  | [], _, k, v, _, hg => by simp [getKey] at hg
  | (k0, v0) :: rest, l2, k, v, hm, hg => by
    obtain ⟨v2, r2, hf, hr, rfl⟩ := mapValsM_cons_inv f k0 v0 rest l2 hm
    by_cases hk : k0 = k
    · subst hk
      simp [getKey] at hg
      subst hg
      exact ⟨v2, hf, by simp [getKey]⟩
    · simp only [getKey, if_neg hk] at hg
      obtain ⟨v2x, hfx, hgx⟩ := mapValsM_getKey f rest r2 k v hr hg
      exact ⟨v2x, hfx, by simp [getKey, hk, hgx]⟩

/-- C5.  After the request-body de-wrap pass, for every path, every
operation that is a mapping, and every content type under its
`requestBody`, a media schema that was a two-element `oneOf` with a
`$ref`-bearing variant is replaced by exactly `{"$ref": r}` (that
variant's reference), discarding every other key and the placeholder
sibling; schemas whose `oneOf` is absent, not a list, not of length
two, or has no `$ref`-bearing variant are left unchanged — the
in-place result is `requestBodyDewrapSpec` of the original schema. -/
theorem c5_request_body_dewrap
    (kvs paths methods op rb content media sch : List (String × Val))
    (p m ct : String) (spec' : Val)
    (hpaths : getKey kvs "paths" = some (.obj paths))
    (hp : getKey paths p = some (.obj methods))
    (hm : getKey methods m = some (.obj op))
    (hrb : getKey op "requestBody" = some (.obj rb))
    (hct : getKey rb "content" = some (.obj content))
    (hmedia : getKey content ct = some (.obj media))
    (hsch : getKey media "schema" = some (.obj sch))
    (hrun : fix_request_body_oneof (.obj kvs) = some spec') :
    ∃ kvs2 paths2 methods2 op2 rb2 content2 media2,
      spec' = .obj kvs2 ∧
      getKey kvs2 "paths" = some (.obj paths2) ∧
      getKey paths2 p = some (.obj methods2) ∧
      getKey methods2 m = some (.obj op2) ∧
      getKey op2 "requestBody" = some (.obj rb2) ∧
      getKey rb2 "content" = some (.obj content2) ∧
      getKey content2 ct = some (.obj media2) ∧
      getKey media2 "schema" = some (.obj (requestBodyDewrapSpec sch)) := by
  have h0 : ∃ paths2, mapValsM fixMethodsVal paths = some paths2 ∧
      spec' = .obj (setKey kvs "paths" (.obj paths2)) := by
    cases hmp : mapValsM fixMethodsVal paths with
    | none =>
      rw [show fix_request_body_oneof (.obj kvs) = none from
        by simp [fix_request_body_oneof, hpaths, hmp]] at hrun
      exact absurd hrun (by simp)
    | some paths2 =>
      rw [show fix_request_body_oneof (.obj kvs) =
          some (.obj (setKey kvs "paths" (.obj paths2))) from
        by simp [fix_request_body_oneof, hpaths, hmp]] at hrun
      exact ⟨paths2, rfl, (Option.some.inj hrun).symm⟩
  obtain ⟨paths2, hmp, rfl⟩ := h0
  obtain ⟨mv2, hfm, hgp2⟩ := mapValsM_getKey _ _ _ _ _ hmp hp
  have h1 : ∃ methods2, mapValsM fixOperation methods = some methods2 ∧
      mv2 = .obj methods2 := by
    cases hmm : mapValsM fixOperation methods with
    | none =>
      rw [show fixMethodsVal (.obj methods) = none from
        by simp [fixMethodsVal, hmm]] at hfm
      exact absurd hfm (by simp)
    | some methods2 =>
      rw [show fixMethodsVal (.obj methods) = some (.obj methods2) from
        by simp [fixMethodsVal, hmm]] at hfm
      exact ⟨methods2, rfl, (Option.some.inj hfm).symm⟩
  obtain ⟨methods2, hmm, rfl⟩ := h1
  obtain ⟨ov2, hfo, hgm2⟩ := mapValsM_getKey _ _ _ _ _ hmm hm
  have h2 : ∃ content2, mapValsM fixMedia content = some content2 ∧
      ov2 = .obj (setKey op "requestBody" (.obj (setKey rb "content" (.obj content2)))) := by
    cases hmc : mapValsM fixMedia content with
    | none =>
      rw [show fixOperation (.obj op) = none from
        by simp [fixOperation, hrb, hct, hmc]] at hfo
      exact absurd hfo (by simp)
    | some content2 =>
      rw [show fixOperation (.obj op) =
          some (.obj (setKey op "requestBody" (.obj (setKey rb "content" (.obj content2))))) from
        by simp [fixOperation, hrb, hct, hmc]] at hfo
      exact ⟨content2, rfl, (Option.some.inj hfo).symm⟩
  obtain ⟨content2, hmc, rfl⟩ := h2
  obtain ⟨md2, hfmd, hgc2⟩ := mapValsM_getKey _ _ _ _ _ hmc hmedia
  have h3 : ∃ sch2, fixMediaSchema sch = some sch2 ∧
      md2 = .obj (setKey media "schema" (.obj sch2)) := by
    cases hfs : fixMediaSchema sch with
    | none =>
      rw [show fixMedia (.obj media) = none from by simp [fixMedia, hsch, hfs]] at hfmd
      exact absurd hfmd (by simp)
    | some sch2 =>
      rw [show fixMedia (.obj media) = some (.obj (setKey media "schema" (.obj sch2))) from
        by simp [fixMedia, hsch, hfs]] at hfmd
      exact ⟨sch2, rfl, (Option.some.inj hfmd).symm⟩
  obtain ⟨sch2, hfs, rfl⟩ := h3
  refine ⟨setKey kvs "paths" (.obj paths2), paths2, methods2,
    setKey op "requestBody" (.obj (setKey rb "content" (.obj content2))),
    setKey rb "content" (.obj content2), content2,
    setKey media "schema" (.obj sch2), rfl, getKey_setKey_self _ _ _, hgp2, hgm2,
    getKey_setKey_self _ _ _, getKey_setKey_self _ _ _, hgc2, ?_⟩
  rw [← fixMediaSchema_eq_spec sch sch2 hfs]
  exact getKey_setKey_self _ _ _

/-- C5 witness: a concrete document with one operation whose media
schema is a two-element placeholder `oneOf`; the pass replaces it by
the bare reference. -/
theorem c5_request_body_dewrap_witness :
    ∃ kvs2 paths2 methods2 op2 rb2 content2 media2,
      (Val.obj [("paths", .obj [("/v1/x", .obj [("post", .obj
        [("requestBody", .obj [("content", .obj [("application/json", .obj
          [("schema", .obj [("$ref", .str "#/c/s/Req")])])])])])])])]) = .obj kvs2 ∧
      getKey kvs2 "paths" = some (.obj paths2) ∧
      getKey paths2 "/v1/x" = some (.obj methods2) ∧
      getKey methods2 "post" = some (.obj op2) ∧
      getKey op2 "requestBody" = some (.obj rb2) ∧
      getKey rb2 "content" = some (.obj content2) ∧
      getKey content2 "application/json" = some (.obj media2) ∧
      getKey media2 "schema" = some (.obj (requestBodyDewrapSpec
        [("oneOf", .arr [.obj [("type", .str "object")],
                         .obj [("$ref", .str "#/c/s/Req")]])])) :=
  c5_request_body_dewrap
    [("paths", .obj [("/v1/x", .obj [("post", .obj
      [("requestBody", .obj [("content", .obj [("application/json", .obj
        [("schema", .obj [("oneOf", .arr [.obj [("type", .str "object")],
                                          .obj [("$ref", .str "#/c/s/Req")]])])])])])])])])]
    [("/v1/x", .obj [("post", .obj [("requestBody", .obj [("content", .obj
      [("application/json", .obj [("schema", .obj [("oneOf", .arr
        [.obj [("type", .str "object")], .obj [("$ref", .str "#/c/s/Req")]])])])])])])])]
    [("post", .obj [("requestBody", .obj [("content", .obj [("application/json", .obj
      [("schema", .obj [("oneOf", .arr [.obj [("type", .str "object")],
                                        .obj [("$ref", .str "#/c/s/Req")]])])])])])])]
    [("requestBody", .obj [("content", .obj [("application/json", .obj
      [("schema", .obj [("oneOf", .arr [.obj [("type", .str "object")],
                                        .obj [("$ref", .str "#/c/s/Req")]])])])])])]
    [("content", .obj [("application/json", .obj [("schema", .obj [("oneOf", .arr
      [.obj [("type", .str "object")], .obj [("$ref", .str "#/c/s/Req")]])])])])]
    [("application/json", .obj [("schema", .obj [("oneOf", .arr
      [.obj [("type", .str "object")], .obj [("$ref", .str "#/c/s/Req")]])])])]
    [("schema", .obj [("oneOf", .arr [.obj [("type", .str "object")],
                                      .obj [("$ref", .str "#/c/s/Req")]])])]
    [("oneOf", .arr [.obj [("type", .str "object")], .obj [("$ref", .str "#/c/s/Req")]])]
    "/v1/x" "post" "application/json"
    (.obj [("paths", .obj [("/v1/x", .obj [("post", .obj
      [("requestBody", .obj [("content", .obj [("application/json", .obj
        [("schema", .obj [("$ref", .str "#/c/s/Req")])])])])])])])])
    (by rfl) (by rfl) (by rfl) (by rfl) (by rfl) (by rfl) (by rfl) (by rfl)

/-!  ## C6: the Files-API fixes  -/

/-- C6.  After the Files-API fix on a document whose `POST /v1/files`
requestBody content has a `multipart/form-data` entry, that entry's
schema is the fixed object requiring exactly `["file", "purpose"]`,
whose properties are exactly a binary-format string `file` and an
enumerated string `purpose`; the content no longer contains an
`application/x-www-form-urlencoded` entry; and, independently, the
first schema whose key ends with `schema.File` has its top-level `type`
key deleted. -/
theorem c6_files_api
    (kvs paths pf post rb content mp c s fsch : List (String × Val))
    (fk : String) (spec' : Val)
    (hpaths : getKey kvs "paths" = some (.obj paths))
    (hfiles : getKey paths "/v1/files" = some (.obj pf))
    (hpost : getKey pf "post" = some (.obj post))
    (hrb : getKey post "requestBody" = some (.obj rb))
    (hct : getKey rb "content" = some (.obj content))
    (hmp : getKey content "multipart/form-data" = some (.obj mp))
    (hndc : (content.map Prod.fst).Nodup)
    (hcomp : getKey kvs "components" = some (.obj c))
    (hsch : getKey c "schemas" = some (.obj s))
    (hfk : findSuffixKey (s.map Prod.fst) "schema.File" = some fk)
    (hfsch : getKey s fk = some (.obj fsch))
    (hndf : (fsch.map Prod.fst).Nodup)
    (hrun : fix_files_api (.obj kvs) = some spec') :
    ∃ kvs2 paths2 pf2 post2 rb2 content2 mp2 c2 s2,
      spec' = .obj kvs2 ∧
      getKey kvs2 "paths" = some (.obj paths2) ∧
      getKey paths2 "/v1/files" = some (.obj pf2) ∧
      getKey pf2 "post" = some (.obj post2) ∧
      getKey post2 "requestBody" = some (.obj rb2) ∧
      getKey rb2 "content" = some (.obj content2) ∧
      getKey content2 "multipart/form-data" = some (.obj mp2) ∧
      getKey mp2 "schema" = some filesMultipartSchemaVal ∧
      getKey content2 "application/x-www-form-urlencoded" = none ∧
      getPath filesMultipartSchemaVal ["required"] =
        some (.arr [.str "file", .str "purpose"]) ∧
      (∃ props, getPath filesMultipartSchemaVal ["properties"] = some (.obj props) ∧
        props.map Prod.fst = ["file", "purpose"]) ∧
      getPath filesMultipartSchemaVal ["properties", "file", "type"] =
        some (.str "string") ∧
      getPath filesMultipartSchemaVal ["properties", "file", "format"] =
        some (.str "binary") ∧
      getPath filesMultipartSchemaVal ["properties", "purpose", "type"] =
        some (.str "string") ∧
      (∃ e, getPath filesMultipartSchemaVal ["properties", "purpose", "enum"] =
        some (.arr e)) ∧
      getKey kvs2 "components" = some (.obj c2) ∧
      getKey c2 "schemas" = some (.obj s2) ∧
      getKey s2 fk = some (.obj (popKey fsch "type")) ∧
      getKey (popKey fsch "type") "type" = none := by
  have h1 : filesPart1 kvs =
      some (setKey kvs "paths" (.obj (setKey paths "/v1/files" (.obj (setKey pf "post"
        (.obj (setKey post "requestBody" (.obj (setKey rb "content"
          (.obj (popKey (setKey content "multipart/form-data"
            (.obj (setKey mp "schema" filesMultipartSchemaVal)))
            "application/x-www-form-urlencoded"))))))))))) := by
    simp [filesPart1, hpaths, hfiles, hpost, hrb, hct, hmp]
  have hcomp1 : getKey (setKey kvs "paths" (.obj (setKey paths "/v1/files"
      (.obj (setKey pf "post" (.obj (setKey post "requestBody" (.obj (setKey rb "content"
        (.obj (popKey (setKey content "multipart/form-data"
          (.obj (setKey mp "schema" filesMultipartSchemaVal)))
          "application/x-www-form-urlencoded"))))))))))) "components" =
      some (.obj c) := by
    rw [getKey_setKey_ne _ _ _ _ (by decide)]
    exact hcomp
  have h2 : filesPart2 (setKey kvs "paths" (.obj (setKey paths "/v1/files"
      (.obj (setKey pf "post" (.obj (setKey post "requestBody" (.obj (setKey rb "content"
        (.obj (popKey (setKey content "multipart/form-data"
          (.obj (setKey mp "schema" filesMultipartSchemaVal)))
          "application/x-www-form-urlencoded"))))))))))) =
      some (setKey (setKey kvs "paths" (.obj (setKey paths "/v1/files"
        (.obj (setKey pf "post" (.obj (setKey post "requestBody" (.obj (setKey rb "content"
          (.obj (popKey (setKey content "multipart/form-data"
            (.obj (setKey mp "schema" filesMultipartSchemaVal)))
            "application/x-www-form-urlencoded")))))))))))
        "components" (.obj (setKey c "schemas" (.obj (setKey s fk
          (.obj (popKey fsch "type"))))))) := by
    simp [filesPart2, hcomp1, hsch, hfk, hfsch]
  rw [show fix_files_api (.obj kvs) =
      some (.obj (setKey (setKey kvs "paths" (.obj (setKey paths "/v1/files"
        (.obj (setKey pf "post" (.obj (setKey post "requestBody" (.obj (setKey rb "content"
          (.obj (popKey (setKey content "multipart/form-data"
            (.obj (setKey mp "schema" filesMultipartSchemaVal)))
            "application/x-www-form-urlencoded")))))))))))
        "components" (.obj (setKey c "schemas" (.obj (setKey s fk
          (.obj (popKey fsch "type")))))))) from
    by simp [fix_files_api, h1, h2]] at hrun
  have hnd1 : ((setKey content "multipart/form-data"
      (.obj (setKey mp "schema" filesMultipartSchemaVal))).map Prod.fst).Nodup := by
    rw [keys_setKey_mem _ _ _ _ hmp]
    exact hndc
  refine ⟨(setKey (setKey kvs "paths" (.obj (setKey paths "/v1/files" (.obj (setKey pf "post" (.obj (setKey post "requestBody" (.obj (setKey rb "content" (.obj (popKey (setKey content "multipart/form-data" (.obj (setKey mp "schema" filesMultipartSchemaVal))) "application/x-www-form-urlencoded"))))))))))) "components" (.obj (setKey c "schemas" (.obj (setKey s fk (.obj (popKey fsch "type"))))))), (setKey paths "/v1/files" (.obj (setKey pf "post" (.obj (setKey post "requestBody" (.obj (setKey rb "content" (.obj (popKey (setKey content "multipart/form-data" (.obj (setKey mp "schema" filesMultipartSchemaVal))) "application/x-www-form-urlencoded"))))))))), (setKey pf "post" (.obj (setKey post "requestBody" (.obj (setKey rb "content" (.obj (popKey (setKey content "multipart/form-data" (.obj (setKey mp "schema" filesMultipartSchemaVal))) "application/x-www-form-urlencoded"))))))), (setKey post "requestBody" (.obj (setKey rb "content" (.obj (popKey (setKey content "multipart/form-data" (.obj (setKey mp "schema" filesMultipartSchemaVal))) "application/x-www-form-urlencoded"))))), (setKey rb "content" (.obj (popKey (setKey content "multipart/form-data" (.obj (setKey mp "schema" filesMultipartSchemaVal))) "application/x-www-form-urlencoded"))), (popKey (setKey content "multipart/form-data" (.obj (setKey mp "schema" filesMultipartSchemaVal))) "application/x-www-form-urlencoded"), (setKey mp "schema" filesMultipartSchemaVal), (setKey c "schemas" (.obj (setKey s fk (.obj (popKey fsch "type"))))), (setKey s fk (.obj (popKey fsch "type"))),
    (Option.some.inj hrun).symm,
    ?_, getKey_setKey_self _ _ _, getKey_setKey_self _ _ _, getKey_setKey_self _ _ _,
    getKey_setKey_self _ _ _, ?_, getKey_setKey_self _ _ _, ?_,
    rfl, ⟨_, rfl, rfl⟩, rfl, rfl, rfl, ⟨_, rfl⟩,
    getKey_setKey_self _ _ _, getKey_setKey_self _ _ _, getKey_setKey_self _ _ _,
    getKey_popKey_self _ _ hndf⟩
  · rw [getKey_setKey_ne _ _ _ _ (by decide)]
    exact getKey_setKey_self _ _ _
  · rw [getKey_popKey_ne _ _ _ (by decide)]
    exact getKey_setKey_self _ _ _
  · exact getKey_popKey_self _ _ hnd1

/-- C6 witness: a concrete upload document with both form encodings and
a `schema.File` schema carrying a spurious `type`. -/
theorem c6_files_api_witness :
    ∃ kvs2 paths2 pf2 post2 rb2 content2 mp2 c2 s2,
      (Val.obj [("paths", .obj [("/v1/files", .obj [("post", .obj
        [("requestBody", .obj [("content", .obj
          [("multipart/form-data", .obj [("schema", filesMultipartSchemaVal)])])])])])]),
        ("components", .obj [("schemas", .obj [("x.schema.File", .obj
          [("properties", .obj [])])])])]) = .obj kvs2 ∧
      getKey kvs2 "paths" = some (.obj paths2) ∧
      getKey paths2 "/v1/files" = some (.obj pf2) ∧
      getKey pf2 "post" = some (.obj post2) ∧
      getKey post2 "requestBody" = some (.obj rb2) ∧
      getKey rb2 "content" = some (.obj content2) ∧
      getKey content2 "multipart/form-data" = some (.obj mp2) ∧
      getKey mp2 "schema" = some filesMultipartSchemaVal ∧
      getKey content2 "application/x-www-form-urlencoded" = none ∧
      getPath filesMultipartSchemaVal ["required"] =
        some (.arr [.str "file", .str "purpose"]) ∧
      (∃ props, getPath filesMultipartSchemaVal ["properties"] = some (.obj props) ∧
        props.map Prod.fst = ["file", "purpose"]) ∧
      getPath filesMultipartSchemaVal ["properties", "file", "type"] =
        some (.str "string") ∧
      getPath filesMultipartSchemaVal ["properties", "file", "format"] =
        some (.str "binary") ∧
      getPath filesMultipartSchemaVal ["properties", "purpose", "type"] =
        some (.str "string") ∧
      (∃ e, getPath filesMultipartSchemaVal ["properties", "purpose", "enum"] =
        some (.arr e)) ∧
      getKey kvs2 "components" = some (.obj c2) ∧
      getKey c2 "schemas" = some (.obj s2) ∧
      getKey s2 "x.schema.File" =
        some (.obj (popKey [("type", .str "object"), ("properties", .obj [])] "type")) ∧
      getKey (popKey [("type", .str "object"), ("properties", .obj [])] "type") "type" =
        none :=
  c6_files_api
    [("paths", .obj [("/v1/files", .obj [("post", .obj
      [("requestBody", .obj [("content", .obj
        [("multipart/form-data", .obj [("schema", .obj [])]),
         ("application/x-www-form-urlencoded", .obj [])])])])])]),
     ("components", .obj [("schemas", .obj [("x.schema.File", .obj
       [("type", .str "object"), ("properties", .obj [])])])])]
    [("/v1/files", .obj [("post", .obj [("requestBody", .obj [("content", .obj
      [("multipart/form-data", .obj [("schema", .obj [])]),
       ("application/x-www-form-urlencoded", .obj [])])])])])]
    [("post", .obj [("requestBody", .obj [("content", .obj
      [("multipart/form-data", .obj [("schema", .obj [])]),
       ("application/x-www-form-urlencoded", .obj [])])])])]
    [("requestBody", .obj [("content", .obj
      [("multipart/form-data", .obj [("schema", .obj [])]),
       ("application/x-www-form-urlencoded", .obj [])])])]
    [("content", .obj [("multipart/form-data", .obj [("schema", .obj [])]),
      ("application/x-www-form-urlencoded", .obj [])])]
    [("multipart/form-data", .obj [("schema", .obj [])]),
     ("application/x-www-form-urlencoded", .obj [])]
    [("schema", .obj [])]
    [("schemas", .obj [("x.schema.File", .obj
      [("type", .str "object"), ("properties", .obj [])])])]
    [("x.schema.File", .obj [("type", .str "object"), ("properties", .obj [])])]
    [("type", .str "object"), ("properties", .obj [])]
    "x.schema.File"
    (.obj [("paths", .obj [("/v1/files", .obj [("post", .obj
      [("requestBody", .obj [("content", .obj
        [("multipart/form-data", .obj [("schema", filesMultipartSchemaVal)])])])])])]),
      ("components", .obj [("schemas", .obj [("x.schema.File", .obj
        [("properties", .obj [])])])])])
    (by rfl) (by rfl) (by rfl) (by rfl) (by rfl) (by rfl) (by decide)
    (by rfl) (by rfl) (by rfl) (by rfl) (by decide) (by rfl)
/-!  ## C7: the search-request default injections  -/

/-- The stage of `fix_search_request` after the `max_num_results` fix:
whatever `searchMax` produced, a present `rewrite_query` gains
`default: false` (all other keys of the field untouched) and an absent
one is left alone; other property entries are not modified by this
stage. -/
theorem c7_after_max
    (kvs c s m p p3 : List (String × Val)) (key : String) (spec' : Val)
    (hc : getKey kvs "components" = some (.obj c))
    (hs : getKey c "schemas" = some (.obj s))
    (hk : findSuffixKey (s.map Prod.fst) "schema.SearchVectorStoreRequest" = some key)
    (hm : getKey s key = some (.obj m))
    (hp : getKey m "properties" = some (.obj p))
    (hsm : searchMax (searchSP s (searchProps1 p)).2 = some p3)
    (hrw : getKey p3 "rewrite_query" = getKey p "rewrite_query")
    (hrun : fix_search_request (.obj kvs) = some spec') :
    ∃ kvs2 c2 s2 m2 p4,
      spec' = .obj kvs2 ∧
      getKey kvs2 "components" = some (.obj c2) ∧
      getKey c2 "schemas" = some (.obj s2) ∧
      getKey s2 key = some (.obj m2) ∧
      getKey m2 "properties" = some (.obj p4) ∧
      (∀ a, a ≠ "rewrite_query" → getKey p4 a = getKey p3 a) ∧
      (∀ rq, getKey p "rewrite_query" = some (.obj rq) →
        getKey p4 "rewrite_query" = some (.obj (setKey rq "default" (.bool false))) ∧
        getKey (setKey rq "default" (.bool false)) "default" = some (.bool false) ∧
        (∀ a, a ≠ "default" →
          getKey (setKey rq "default" (.bool false)) a = getKey rq a)) := by
  cases hrq : getKey p "rewrite_query" with
  | none =>
    have hrq3 : getKey p3 "rewrite_query" = none := hrw.trans hrq
    have hsr : searchRewrite p3 = some p3 := by
      simp [searchRewrite, hrq3]
    rw [show fix_search_request (.obj kvs) = some (.obj (setKey kvs "components" (.obj (setKey c "schemas" (.obj (setKey (searchSP s (searchProps1 p)).1 key (.obj (setKey m "properties" (.obj p3))))))))) from
      by simp [fix_search_request, hc, hs, hk, hm, hp, hsm, hsr]] at hrun
    refine ⟨(setKey kvs "components" (.obj (setKey c "schemas" (.obj (setKey (searchSP s (searchProps1 p)).1 key (.obj (setKey m "properties" (.obj p3)))))))), (setKey c "schemas" (.obj (setKey (searchSP s (searchProps1 p)).1 key (.obj (setKey m "properties" (.obj p3)))))), (setKey (searchSP s (searchProps1 p)).1 key (.obj (setKey m "properties" (.obj p3)))), (setKey m "properties" (.obj p3)), p3,
      (Option.some.inj hrun).symm, getKey_setKey_self _ _ _, getKey_setKey_self _ _ _,
      getKey_setKey_self _ _ _, getKey_setKey_self _ _ _, fun a _ => rfl, ?_⟩
    intro rq hr
    exact absurd hr (by simp)
  | some rqv =>
    cases rqv with
    | obj rq =>
      have hrq3 : getKey p3 "rewrite_query" = some (.obj rq) := hrw.trans hrq
      have hsr : searchRewrite p3 = some (setKey p3 "rewrite_query" (.obj (setKey rq "default" (.bool false)))) := by
        simp [searchRewrite, hrq3]
      rw [show fix_search_request (.obj kvs) = some (.obj (setKey kvs "components" (.obj (setKey c "schemas" (.obj (setKey (searchSP s (searchProps1 p)).1 key (.obj (setKey m "properties" (.obj (setKey p3 "rewrite_query" (.obj (setKey rq "default" (.bool false))))))))))))) from
        by simp [fix_search_request, hc, hs, hk, hm, hp, hsm, hsr]] at hrun
      refine ⟨(setKey kvs "components" (.obj (setKey c "schemas" (.obj (setKey (searchSP s (searchProps1 p)).1 key (.obj (setKey m "properties" (.obj (setKey p3 "rewrite_query" (.obj (setKey rq "default" (.bool false)))))))))))), (setKey c "schemas" (.obj (setKey (searchSP s (searchProps1 p)).1 key (.obj (setKey m "properties" (.obj (setKey p3 "rewrite_query" (.obj (setKey rq "default" (.bool false)))))))))), (setKey (searchSP s (searchProps1 p)).1 key (.obj (setKey m "properties" (.obj (setKey p3 "rewrite_query" (.obj (setKey rq "default" (.bool false)))))))), (setKey m "properties" (.obj (setKey p3 "rewrite_query" (.obj (setKey rq "default" (.bool false)))))), (setKey p3 "rewrite_query" (.obj (setKey rq "default" (.bool false)))),
        (Option.some.inj hrun).symm, getKey_setKey_self _ _ _, getKey_setKey_self _ _ _,
        getKey_setKey_self _ _ _, getKey_setKey_self _ _ _, ?_, ?_⟩
      · intro a ha
        exact getKey_setKey_ne _ _ _ _ ha
      · intro rq2 hr
        obtain rfl : rq2 = rq := by
          injection Option.some.inj hr with h12
          exact h12.symm
        exact ⟨getKey_setKey_self _ _ _, getKey_setKey_self _ _ _,
          fun a ha => getKey_setKey_ne _ _ _ _ ha⟩
    | str rs =>
      have hrq3 : getKey p3 "rewrite_query" = some (.str rs) := hrw.trans hrq
      rw [show fix_search_request (.obj kvs) = none from
        by simp [fix_search_request, hc, hs, hk, hm, hp, hsm, searchRewrite, hrq3]] at hrun
      exact absurd hrun (by simp)
    | quotedNull =>
      have hrq3 : getKey p3 "rewrite_query" = some Val.quotedNull := hrw.trans hrq
      rw [show fix_search_request (.obj kvs) = none from
        by simp [fix_search_request, hc, hs, hk, hm, hp, hsm, searchRewrite, hrq3]] at hrun
      exact absurd hrun (by simp)
    | int rn =>
      have hrq3 : getKey p3 "rewrite_query" = some (.int rn) := hrw.trans hrq
      rw [show fix_search_request (.obj kvs) = none from
        by simp [fix_search_request, hc, hs, hk, hm, hp, hsm, searchRewrite, hrq3]] at hrun
      exact absurd hrun (by simp)
    | bool rb2 =>
      have hrq3 : getKey p3 "rewrite_query" = some (.bool rb2) := hrw.trans hrq
      rw [show fix_search_request (.obj kvs) = none from
        by simp [fix_search_request, hc, hs, hk, hm, hp, hsm, searchRewrite, hrq3]] at hrun
      exact absurd hrun (by simp)
    | null =>
      have hrq3 : getKey p3 "rewrite_query" = some Val.null := hrw.trans hrq
      rw [show fix_search_request (.obj kvs) = none from
        by simp [fix_search_request, hc, hs, hk, hm, hp, hsm, searchRewrite, hrq3]] at hrun
      exact absurd hrun (by simp)
    | arr rl =>
      have hrq3 : getKey p3 "rewrite_query" = some (.arr rl) := hrw.trans hrq
      rw [show fix_search_request (.obj kvs) = none from
        by simp [fix_search_request, hc, hs, hk, hm, hp, hsm, searchRewrite, hrq3]] at hrun
      exact absurd hrun (by simp)

/-- C7.  On the first schema whose key ends with the search-request
suffix, the two default injections are independent: if its properties
contain `max_num_results`, the pass adds `default: 10` to that field
schema and leaves every other key of the field schema unchanged; and
(independently, whether or not `max_num_results` is present) if
`rewrite_query` is present it gains `default: false` with all its
other keys unchanged. -/
theorem c7_search_defaults
    (kvs c s m p : List (String × Val)) (key : String) (spec' : Val)
    (hc : getKey kvs "components" = some (.obj c))
    (hs : getKey c "schemas" = some (.obj s))
    (hk : findSuffixKey (s.map Prod.fst) "schema.SearchVectorStoreRequest" = some key)
    (hm : getKey s key = some (.obj m))
    (hp : getKey m "properties" = some (.obj p))
    (hrun : fix_search_request (.obj kvs) = some spec') :
    ∃ kvs2 c2 s2 m2 p4,
      spec' = .obj kvs2 ∧
      getKey kvs2 "components" = some (.obj c2) ∧
      getKey c2 "schemas" = some (.obj s2) ∧
      getKey s2 key = some (.obj m2) ∧
      getKey m2 "properties" = some (.obj p4) ∧
      (∀ fm, getKey p "max_num_results" = some (.obj fm) →
        getKey p4 "max_num_results" = some (.obj (setKey fm "default" (.int 10))) ∧
        getKey (setKey fm "default" (.int 10)) "default" = some (.int 10) ∧
        (∀ a, a ≠ "default" →
          getKey (setKey fm "default" (.int 10)) a = getKey fm a)) ∧
      (∀ rq, getKey p "rewrite_query" = some (.obj rq) →
        getKey p4 "rewrite_query" = some (.obj (setKey rq "default" (.bool false))) ∧
        getKey (setKey rq "default" (.bool false)) "default" = some (.bool false) ∧
        (∀ a, a ≠ "default" →
          getKey (setKey rq "default" (.bool false)) a = getKey rq a)) := by
  have hq1 : ∀ a, a ≠ "query" → getKey (searchProps1 p) a = getKey p a := by
    intro a ha
    unfold searchProps1
    by_cases hq : hasKey p "query" = true
    · rw [if_pos hq]
      exact getKey_setKey_ne _ _ _ _ ha
    · rw [if_neg hq]
  have hsp2 : ∀ a, a ≠ "filters" →
      getKey (searchSP s (searchProps1 p)).2 a = getKey (searchProps1 p) a := by
    intro a ha
    unfold searchSP
    by_cases hf : hasKey (searchProps1 p) "filters" = true
    · rw [if_pos hf]
      exact getKey_setKey_ne _ _ _ _ ha
    · rw [if_neg hf]
  have hpre : ∀ a, a ≠ "query" → a ≠ "filters" →
      getKey (searchSP s (searchProps1 p)).2 a = getKey p a :=
    fun a h1 h2 => (hsp2 a h2).trans (hq1 a h1)
  cases hmaxv : getKey p "max_num_results" with
  | none =>
    have hmax2 : getKey (searchSP s (searchProps1 p)).2 "max_num_results" = none :=
      (hpre _ (by decide) (by decide)).trans hmaxv
    have hsm : searchMax (searchSP s (searchProps1 p)).2 = some (searchSP s (searchProps1 p)).2 := by
      simp [searchMax, hmax2]
    have hrw : getKey (searchSP s (searchProps1 p)).2 "rewrite_query" = getKey p "rewrite_query" :=
      hpre _ (by decide) (by decide)
    obtain ⟨kvs2, c2, s2, m2, p4, h1, h2, h3, h4, h5, _, h7⟩ :=
      c7_after_max kvs c s m p (searchSP s (searchProps1 p)).2 key spec' hc hs hk hm hp hsm hrw hrun
    refine ⟨kvs2, c2, s2, m2, p4, h1, h2, h3, h4, h5, ?_, h7⟩
    intro fm hfm
    exact absurd hfm (by simp)
  | some v =>
    cases v with
    | obj fm =>
      have hmax2 : getKey (searchSP s (searchProps1 p)).2 "max_num_results" = some (.obj fm) :=
        (hpre _ (by decide) (by decide)).trans hmaxv
      have hsm : searchMax (searchSP s (searchProps1 p)).2 = some (setKey (searchSP s (searchProps1 p)).2 "max_num_results" (.obj (setKey fm "default" (.int 10)))) := by
        simp [searchMax, hmax2]
      have hrw : getKey (setKey (searchSP s (searchProps1 p)).2 "max_num_results" (.obj (setKey fm "default" (.int 10)))) "rewrite_query" = getKey p "rewrite_query" := by
        rw [getKey_setKey_ne _ _ _ _ (by decide)]
        exact hpre _ (by decide) (by decide)
      obtain ⟨kvs2, c2, s2, m2, p4, h1, h2, h3, h4, h5, h6, h7⟩ :=
        c7_after_max kvs c s m p (setKey (searchSP s (searchProps1 p)).2 "max_num_results" (.obj (setKey fm "default" (.int 10)))) key spec' hc hs hk hm hp hsm hrw hrun
      refine ⟨kvs2, c2, s2, m2, p4, h1, h2, h3, h4, h5, ?_, h7⟩
      intro fm2 hfm2
      obtain rfl : fm2 = fm := by
        injection Option.some.inj hfm2 with h12
        exact h12.symm
      refine ⟨?_, getKey_setKey_self _ _ _, fun a ha => getKey_setKey_ne _ _ _ _ ha⟩
      rw [h6 _ (by decide)]
      exact getKey_setKey_self _ _ _
    | str ms =>
      have hmax2 : getKey (searchSP s (searchProps1 p)).2 "max_num_results" = some (.str ms) :=
        (hpre _ (by decide) (by decide)).trans hmaxv
      rw [show fix_search_request (.obj kvs) = none from
        by simp [fix_search_request, hc, hs, hk, hm, hp, searchMax, hmax2]] at hrun
      exact absurd hrun (by simp)
    | quotedNull =>
      have hmax2 : getKey (searchSP s (searchProps1 p)).2 "max_num_results" = some Val.quotedNull :=
        (hpre _ (by decide) (by decide)).trans hmaxv
      rw [show fix_search_request (.obj kvs) = none from
        by simp [fix_search_request, hc, hs, hk, hm, hp, searchMax, hmax2]] at hrun
      exact absurd hrun (by simp)
    | int mn =>
      have hmax2 : getKey (searchSP s (searchProps1 p)).2 "max_num_results" = some (.int mn) :=
        (hpre _ (by decide) (by decide)).trans hmaxv
      rw [show fix_search_request (.obj kvs) = none from
        by simp [fix_search_request, hc, hs, hk, hm, hp, searchMax, hmax2]] at hrun
      exact absurd hrun (by simp)
    | bool mb =>
      have hmax2 : getKey (searchSP s (searchProps1 p)).2 "max_num_results" = some (.bool mb) :=
        (hpre _ (by decide) (by decide)).trans hmaxv
      rw [show fix_search_request (.obj kvs) = none from
        by simp [fix_search_request, hc, hs, hk, hm, hp, searchMax, hmax2]] at hrun
      exact absurd hrun (by simp)
    | null =>
      have hmax2 : getKey (searchSP s (searchProps1 p)).2 "max_num_results" = some Val.null :=
        (hpre _ (by decide) (by decide)).trans hmaxv
      rw [show fix_search_request (.obj kvs) = none from
        by simp [fix_search_request, hc, hs, hk, hm, hp, searchMax, hmax2]] at hrun
      exact absurd hrun (by simp)
    | arr ml =>
      have hmax2 : getKey (searchSP s (searchProps1 p)).2 "max_num_results" = some (.arr ml) :=
        (hpre _ (by decide) (by decide)).trans hmaxv
      rw [show fix_search_request (.obj kvs) = none from
        by simp [fix_search_request, hc, hs, hk, hm, hp, searchMax, hmax2]] at hrun
      exact absurd hrun (by simp)

/-- C7 witness: two concrete search-request schemas — one with both
`max_num_results` and `rewrite_query` present, and one with only
`rewrite_query` — exercising both independent default injections. -/
theorem c7_search_defaults_witness :
    (∃ kvs2 c2 s2 m2 p4,
      (Val.obj [("components", .obj [("schemas", .obj
        [("y.schema.SearchVectorStoreRequest", .obj [("properties", .obj
          [("max_num_results", .obj [("type", .str "integer"), ("default", .int 10)]),
           ("rewrite_query", .obj [("type", .str "boolean"),
                                   ("default", .bool false)])])])])])]) = .obj kvs2 ∧
      getKey kvs2 "components" = some (.obj c2) ∧
      getKey c2 "schemas" = some (.obj s2) ∧
      getKey s2 "y.schema.SearchVectorStoreRequest" = some (.obj m2) ∧
      getKey m2 "properties" = some (.obj p4) ∧
      (∀ fm, getKey [("max_num_results", Val.obj [("type", Val.str "integer")]),
          ("rewrite_query", Val.obj [("type", Val.str "boolean")])] "max_num_results" =
            some (.obj fm) →
        getKey p4 "max_num_results" = some (.obj (setKey fm "default" (.int 10))) ∧
        getKey (setKey fm "default" (.int 10)) "default" = some (.int 10) ∧
        (∀ a, a ≠ "default" →
          getKey (setKey fm "default" (.int 10)) a = getKey fm a)) ∧
      (∀ rq, getKey [("max_num_results", Val.obj [("type", Val.str "integer")]),
          ("rewrite_query", Val.obj [("type", Val.str "boolean")])] "rewrite_query" =
            some (.obj rq) →
        getKey p4 "rewrite_query" = some (.obj (setKey rq "default" (.bool false))) ∧
        getKey (setKey rq "default" (.bool false)) "default" = some (.bool false) ∧
        (∀ a, a ≠ "default" →
          getKey (setKey rq "default" (.bool false)) a = getKey rq a))) ∧
    (∃ kvs2 c2 s2 m2 p4,
      (Val.obj [("components", .obj [("schemas", .obj
        [("y.schema.SearchVectorStoreRequest", .obj [("properties", .obj
          [("rewrite_query", .obj [("type", .str "boolean"),
                                   ("default", .bool false)])])])])])]) = .obj kvs2 ∧
      getKey kvs2 "components" = some (.obj c2) ∧
      getKey c2 "schemas" = some (.obj s2) ∧
      getKey s2 "y.schema.SearchVectorStoreRequest" = some (.obj m2) ∧
      getKey m2 "properties" = some (.obj p4) ∧
      (∀ fm, getKey [("rewrite_query", Val.obj [("type", Val.str "boolean")])]
          "max_num_results" = some (.obj fm) →
        getKey p4 "max_num_results" = some (.obj (setKey fm "default" (.int 10))) ∧
        getKey (setKey fm "default" (.int 10)) "default" = some (.int 10) ∧
        (∀ a, a ≠ "default" →
          getKey (setKey fm "default" (.int 10)) a = getKey fm a)) ∧
      (∀ rq, getKey [("rewrite_query", Val.obj [("type", Val.str "boolean")])]
          "rewrite_query" = some (.obj rq) →
        getKey p4 "rewrite_query" = some (.obj (setKey rq "default" (.bool false))) ∧
        getKey (setKey rq "default" (.bool false)) "default" = some (.bool false) ∧
        (∀ a, a ≠ "default" →
          getKey (setKey rq "default" (.bool false)) a = getKey rq a))) := by
  constructor
  · exact c7_search_defaults
      [("components", .obj [("schemas", .obj
        [("y.schema.SearchVectorStoreRequest", .obj [("properties", .obj
          [("max_num_results", .obj [("type", .str "integer")]),
           ("rewrite_query", .obj [("type", .str "boolean")])])])])])]
      [("schemas", .obj [("y.schema.SearchVectorStoreRequest", .obj [("properties", .obj
        [("max_num_results", .obj [("type", .str "integer")]),
         ("rewrite_query", .obj [("type", .str "boolean")])])])])]
      [("y.schema.SearchVectorStoreRequest", .obj [("properties", .obj
        [("max_num_results", .obj [("type", .str "integer")]),
         ("rewrite_query", .obj [("type", .str "boolean")])])])]
      [("properties", .obj [("max_num_results", .obj [("type", .str "integer")]),
        ("rewrite_query", .obj [("type", .str "boolean")])])]
      [("max_num_results", .obj [("type", .str "integer")]),
       ("rewrite_query", .obj [("type", .str "boolean")])]
      "y.schema.SearchVectorStoreRequest"
      (.obj [("components", .obj [("schemas", .obj
        [("y.schema.SearchVectorStoreRequest", .obj [("properties", .obj
          [("max_num_results", .obj [("type", .str "integer"), ("default", .int 10)]),
           ("rewrite_query", .obj [("type", .str "boolean"),
                                   ("default", .bool false)])])])])])])
      (by rfl) (by rfl) (by rfl) (by rfl) (by rfl) (by rfl)
  · exact c7_search_defaults
      [("components", .obj [("schemas", .obj
        [("y.schema.SearchVectorStoreRequest", .obj [("properties", .obj
          [("rewrite_query", .obj [("type", .str "boolean")])])])])])]
      [("schemas", .obj [("y.schema.SearchVectorStoreRequest", .obj [("properties", .obj
        [("rewrite_query", .obj [("type", .str "boolean")])])])])]
      [("y.schema.SearchVectorStoreRequest", .obj [("properties", .obj
        [("rewrite_query", .obj [("type", .str "boolean")])])])]
      [("properties", .obj [("rewrite_query", .obj [("type", .str "boolean")])])]
      [("rewrite_query", .obj [("type", .str "boolean")])]
      "y.schema.SearchVectorStoreRequest"
      (.obj [("components", .obj [("schemas", .obj
        [("y.schema.SearchVectorStoreRequest", .obj [("properties", .obj
          [("rewrite_query", .obj [("type", .str "boolean"),
                                   ("default", .bool false)])])])])])])
      (by rfl) (by rfl) (by rfl) (by rfl) (by rfl) (by rfl)

/-!  ## C9: lookup-miss behaviour of the passes  -/

theorem nullableLoop_all_miss :
    ∀ (entries : List (String × String × Option String)) (s : List (String × Val)),
    (∀ e ∈ entries, findSuffixKey (s.map Prod.fst) e.1 = none) →
    nullableLoop entries s = some (s, entries.map (fun e => warnSchemaMiss e.1))
  | [], _, _ => rfl
  | e :: rest, s, h => by
    have he : findSuffixKey (s.map Prod.fst) e.1 = none := h e (List.mem_cons_self _ _)
    have hstep : nullableStep s e = some (s, [warnSchemaMiss e.1]) := by
      simp [nullableStep, he]
    have hrest := nullableLoop_all_miss rest s
      (fun e2 he2 => h e2 (List.mem_cons_of_mem _ he2))
    show (match nullableStep s e with
          | none => none
          | some (s1, w1) =>
            match nullableLoop rest s1 with
            | none => none
            | some (s2, w2) => some (s2, w1 ++ w2)) =
      some (s, (e :: rest).map (fun e2 => warnSchemaMiss e2.1))
    rw [hstep]
    show (match nullableLoop rest s with
          | none => none
          | some (s2, w2) => some (s2, [warnSchemaMiss e.1] ++ w2)) = _
    rw [hrest]
    rfl

/-- C9 counterexample: the chunking-strategy pass misses its configured
suffix (no key of the schemas dict ends with `schema.ChunkingStrategy`)
yet reports NO warning on the error stream — its stderr output is the
empty list — contradicting "the miss is reported as a warning on the
error stream" for every pass. -/
theorem c9_counterexample :
    fix_chunking_strategy_union
      (.obj [("components", .obj [("schemas", .obj [("schema.Foo", .obj [])])])]) =
      some (.obj [("components", .obj [("schemas", .obj [("schema.Foo", .obj [])])])],
        ([] : List String)) ∧
    findSuffixKey ["schema.Foo"] "schema.ChunkingStrategy" = none :=
  ⟨rfl, rfl⟩

/-- C9 (amended).  The nullable pass reports a missed schema suffix or
field name as a warning on the error stream and skips that entry with
the document otherwise unchanged; the chunking-strategy pass skips a
missing target silently, with no warning, returning the document
unchanged; and a pass's misses never stop the pipeline — after the
nullable pass all remaining passes still execute on its output. -/
theorem c9_lookup_miss_amended :
    (∀ (kvs c s : List (String × Val)),
      getKey kvs "components" = some (.obj c) →
      getKey c "schemas" = some (.obj s) →
      findSuffixKey (s.map Prod.fst) "schema.Response" = none →
      fix_nullable (.obj kvs) =
        some (.obj kvs, List.replicate 10 (warnSchemaMiss "schema.Response"))) ∧
    (∀ (s m p : List (String × Val)) (sfx fld : String) (dov : Option String)
      (key : String),
      findSuffixKey (s.map Prod.fst) sfx = some key →
      getKey s key = some (.obj m) →
      getKey m "properties" = some (.obj p) →
      getKey p fld = none →
      nullableStep s (sfx, fld, dov) = some (s, [warnFieldMiss fld key])) ∧
    (∀ (kvs c s : List (String × Val)),
      getKey kvs "components" = some (.obj c) →
      getKey c "schemas" = some (.obj s) →
      findSuffixKey (s.map Prod.fst) "schema.ChunkingStrategy" = none →
      fix_chunking_strategy_union (.obj kvs) = some (.obj kvs, ([] : List String))) ∧
    (∀ (spec s1 : Val) (w1 : List String),
      fix_nullable spec = some (s1, w1) →
      pipeline spec = (pipelineRest s1).map (fun r => (r.1, w1 ++ r.2))) := by
  refine ⟨?_, ?_, ?_, ?_⟩
  · intro kvs c s hc hs hmiss
    have hfst : ∀ e ∈ NULLABLE_FIELDS, e.1 = "schema.Response" := by decide
    have hall : ∀ e ∈ NULLABLE_FIELDS, findSuffixKey (s.map Prod.fst) e.1 = none := by
      intro e he
      rw [hfst e he]
      exact hmiss
    have hloop := nullableLoop_all_miss NULLABLE_FIELDS s hall
    rw [show fix_nullable (.obj kvs) =
        some (.obj (setKey kvs "components" (.obj (setKey c "schemas" (.obj s)))),
          NULLABLE_FIELDS.map (fun e => warnSchemaMiss e.1)) from
      by simp [fix_nullable, hc, hs, hloop]]
    rw [setKey_same _ _ _ hs, setKey_same _ _ _ hc]
    rfl
  · intro s m p sfx fld dov key hk hg hq hf
    simp [nullableStep, hk, hg, hq, hf]
  · intro kvs c s hc hs hk
    simp [fix_chunking_strategy_union, hc, hs, hk]
  · intro spec s1 w1 h
    cases hp : pipelineRest s1 with
    | none => simp [pipeline, h, hp]
    | some r =>
      obtain ⟨s7, w7⟩ := r
      simp [pipeline, h, hp]

/-- C9 witness: the amended behaviour on concrete documents — a
suffix miss warned and skipped, a field miss warned and skipped, a
chunking miss silent, and the pipeline proceeding past the nullable
pass's misses. -/
theorem c9_lookup_miss_amended_witness :
    fix_nullable (.obj [("components", .obj [("schemas", .obj
        [("schema.Foo", .obj [])])])]) =
      some (.obj [("components", .obj [("schemas", .obj [("schema.Foo", .obj [])])])],
        List.replicate 10 (warnSchemaMiss "schema.Response")) ∧
    nullableStep [("a.schema.Response", .obj [("properties", .obj [])])]
        ("schema.Response", "completed_at", none) =
      some ([("a.schema.Response", .obj [("properties", .obj [])])],
        [warnFieldMiss "completed_at" "a.schema.Response"]) ∧
    fix_chunking_strategy_union (.obj [("components", .obj [("schemas", .obj
        [("schema.Bar", .obj [])])])]) =
      some (.obj [("components", .obj [("schemas", .obj [("schema.Bar", .obj [])])])],
        ([] : List String)) ∧
    pipeline (.obj []) =
      (pipelineRest (.obj [])).map
        (fun r => (r.1, List.replicate 10 (warnSchemaMiss "schema.Response") ++ r.2)) := by
  refine ⟨?_, ?_, ?_, ?_⟩
  · exact c9_lookup_miss_amended.1
      [("components", .obj [("schemas", .obj [("schema.Foo", .obj [])])])]
      [("schemas", .obj [("schema.Foo", .obj [])])]
      [("schema.Foo", .obj [])] (by rfl) (by rfl) (by rfl)
  · exact c9_lookup_miss_amended.2.1
      [("a.schema.Response", .obj [("properties", .obj [])])]
      [("properties", .obj [])] [] "schema.Response" "completed_at" none
      "a.schema.Response" (by rfl) (by rfl) (by rfl) (by rfl)
  · exact c9_lookup_miss_amended.2.2.1
      [("components", .obj [("schemas", .obj [("schema.Bar", .obj [])])])]
      [("schemas", .obj [("schema.Bar", .obj [])])]
      [("schema.Bar", .obj [])] (by rfl) (by rfl) (by rfl)
  · exact c9_lookup_miss_amended.2.2.2 (.obj []) (.obj [])
      (List.replicate 10 (warnSchemaMiss "schema.Response")) (by rfl)

end OpenapiFix
